import Mathlib

/-!
# Verification of the wows-armor gunnery core

Shallow embedding of the armor/ballistics core of the `wows-armor` repository
(`src/gun.rs`, `src/ballistics.rs`).  Floating-point (`f64`) arithmetic is
modelled by exact real arithmetic; the source's approximate constant for pi
(`3.14159265`) is kept literally.  Randomness (`rand::thread_rng`) is modelled
by explicitly passed draw values / draw streams, and the source's unbounded
`loop` is modelled with an explicit fuel parameter (`none` = the loop has not
terminated within the given fuel).
-/

namespace WowsArmor

/-- 3-component real vector; models both `cgmath::Vector3<f64>` and
`cgmath::Point3<f64>` of the source. -/
@[ext]
structure Vec3 where
  x : ℝ
  y : ℝ
  z : ℝ

namespace Vec3

def add (a b : Vec3) : Vec3 := ⟨a.x + b.x, a.y + b.y, a.z + b.z⟩

def sub (a b : Vec3) : Vec3 := ⟨a.x - b.x, a.y - b.y, a.z - b.z⟩

def neg (a : Vec3) : Vec3 := ⟨-a.x, -a.y, -a.z⟩

def smul (c : ℝ) (a : Vec3) : Vec3 := ⟨c * a.x, c * a.y, c * a.z⟩

instance : Add Vec3 := ⟨Vec3.add⟩

instance : Sub Vec3 := ⟨Vec3.sub⟩

instance : Neg Vec3 := ⟨Vec3.neg⟩

instance : SMul ℝ Vec3 := ⟨Vec3.smul⟩

instance : Zero Vec3 := ⟨⟨0, 0, 0⟩⟩

/-- `cgmath::dot`. -/
def dot (a b : Vec3) : ℝ := a.x * b.x + a.y * b.y + a.z * b.z

/-- `Vector3::cross`. -/
def cross (a b : Vec3) : Vec3 :=
  ⟨a.y * b.z - a.z * b.y, a.z * b.x - a.x * b.z, a.x * b.y - a.y * b.x⟩

/-- `Vector3::magnitude` (Euclidean length). -/
noncomputable def magnitude (a : Vec3) : ℝ := Real.sqrt (a.dot a)

/-- `Vector3::normalize` (division by the magnitude; in this exact-real model
division by a zero magnitude yields the zero vector). -/
noncomputable def normalize (a : Vec3) : Vec3 := (1 / a.magnitude) • a

@[simp] theorem add_def (a b : Vec3) :
    a + b = ⟨a.x + b.x, a.y + b.y, a.z + b.z⟩ := rfl

@[simp] theorem sub_def (a b : Vec3) :
    a - b = ⟨a.x - b.x, a.y - b.y, a.z - b.z⟩ := rfl

@[simp] theorem neg_def (a : Vec3) : -a = ⟨-a.x, -a.y, -a.z⟩ := rfl

@[simp] theorem smul_def (c : ℝ) (a : Vec3) :
    c • a = ⟨c * a.x, c * a.y, c * a.z⟩ := rfl

@[simp] theorem zero_def : (0 : Vec3) = ⟨0, 0, 0⟩ := rfl

@[simp] theorem zero_x : (0 : Vec3).x = 0 := rfl

@[simp] theorem zero_y : (0 : Vec3).y = 0 := rfl

@[simp] theorem zero_z : (0 : Vec3).z = 0 := rfl

@[simp] theorem mk_x (x y z : ℝ) : (Vec3.mk x y z).x = x := rfl

@[simp] theorem mk_y (x y z : ℝ) : (Vec3.mk x y z).y = y := rfl

@[simp] theorem mk_z (x y z : ℝ) : (Vec3.mk x y z).z = z := rfl

end Vec3

/-- The source's `deg2rad` (note: it uses the approximate constant
`3.14159265`, not the exact pi). -/
noncomputable def deg2rad (x : ℝ) : ℝ := x * 3.14159265 / 180

/-- `ArmorType` (`gun.rs`). -/
inductive ArmorType where
  | Normal
  | Citadel
  | TorpedoProtectionBelt
deriving DecidableEq

/-- `ArmorFace` (`gun.rs`): three vertices, a thickness (mm) and an armor
class.  The source stores the vertices as the array `vertices[0..3]`; here
they are the fields `v0`, `v1`, `v2`. -/
structure ArmorFace where
  v0 : Vec3
  v1 : Vec3
  v2 : Vec3
  thickness : ℝ
  armorType : ArmorType

/-- `Intersection` (`gun.rs`). -/
structure Intersection where
  t : ℝ
  angle : ℝ
  intersectPoint : Vec3

/-- `ArmorFace::normal`. -/
noncomputable def ArmorFace.normal (f : ArmorFace) : Vec3 :=
  ((f.v1 - f.v0).cross (f.v2 - f.v0)).normalize

/-- `ArmorFace::reflect`. -/
noncomputable def ArmorFace.reflect (f : ArmorFace) (other : Vec3) : Vec3 :=
  let v := ((0 : Vec3) - other).normalize
  let sign : ℝ := if v.dot f.normal < 0 then -1 else 1
  let n := sign • f.normal
  let scale := 2 * v.dot n
  (v - scale • n).normalize

/-- The angle computation at the end of `ArmorFace::intersect`: the angle (in
degrees, via the approximate pi) between the face normal and the ray, folded
into `[0, 90]` and complemented, so `0` is a grazing hit and `90` a
perpendicular hit. -/
noncomputable def hitAngle (f : ArmorFace) (direction : Vec3) : ℝ :=
  let a := f.normal.dot direction
  let angle := 180 / 3.14159265 * Real.arccos (a / direction.magnitude)
  let angle2 := if angle < 0 then -angle else if angle > 90 then 180 - angle else angle
  90 - angle2

/-- `ArmorFace::intersect` (Moeller-Trumbore ray/triangle intersection). -/
noncomputable def ArmorFace.intersect (f : ArmorFace) (origin direction : Vec3) :
    Option Intersection :=
  let edge1 := f.v1 - f.v0
  let edge2 := f.v2 - f.v0
  let h := direction.cross edge2
  let a := edge1.dot h
  if |a| < 0.00001 then none
  else
    let fi := 1 / a
    let s := origin - f.v0
    let u := fi * s.dot h
    if u < 0 ∨ u > 1 then none
    else
      let q := s.cross edge1
      let v := fi * direction.dot q
      if v < 0 ∨ u + v > 1 then none
      else
        let t := fi * edge2.dot q
        some ⟨t, hitAngle f direction, origin + t • direction⟩

/-- `ImpactPath::next_intersection`: scan all faces, keep intersections with
`t > 0.00001`, and select the minimal-`t` one (`Iterator::min_by`, which keeps
the later element on ties). -/
noncomputable def nextIntersection (mesh : List ArmorFace) (position direction : Vec3) :
    Option (ArmorFace × Intersection) :=
  let cands :=
    (mesh.filterMap fun face => (face.intersect position direction).map fun i => (face, i)).filter
      fun fi => fi.2.t > 0.00001
  match cands with
  | [] => none
  | c :: cs => some (cs.foldl (fun acc y => if acc.2.t < y.2.t then acc else y) c)

/-- `Dispersion` (`ballistics.rs`). -/
structure Dispersion where
  horizontal : ℝ
  vertical : ℝ
  maxrange : ℝ
  sigma : ℝ

/-- `Dispersion::generate_offset`.  The two accepted `bounded_gauss` draws are
passed explicitly as `g1` and `g2` (the source draws them from a process-wide
RNG, rejecting until each lies strictly inside `(-0.5, 0.5)`). -/
noncomputable def Dispersion.generateOffset (d : Dispersion) (g1 g2 azimuth range : ℝ) : Vec3 :=
  let distanceFactor := range / d.maxrange
  let x := d.horizontal * g1 * distanceFactor
  let y := d.vertical * g2 * distanceFactor
  ⟨x * Real.cos (deg2rad azimuth) - y * Real.sin (deg2rad azimuth), 0,
   x * Real.sin (deg2rad azimuth) + y * Real.cos (deg2rad azimuth)⟩

/-- `Ballistics` (`ballistics.rs`). -/
structure Ballistics where
  mass : ℝ
  diameter : ℝ
  muzzleSpeed : ℝ
  drag : ℝ
  krupp : ℝ

/-- `BallisticFlight` (`ballistics.rs`). -/
structure BallisticFlight where
  distance : ℝ
  velocity : ℝ
  timeAloft : ℝ
  impactAngle : ℝ
  penetration : ℝ

/-- The mutable state of the integration loop inside
`Ballistics::calculate_flight`. -/
structure FState where
  x : ℝ
  y : ℝ
  vx : ℝ
  vy : ℝ
  t : ℝ

/-- One iteration of the `while y >= 0.0` loop of
`Ballistics::calculate_flight`: the position is advanced first (with the
pre-step velocity), then the atmosphere is evaluated at the *new* altitude and
the velocity is updated. -/
noncomputable def flightStep (b : Ballistics) (s : FState) : FState :=
  let tempSeaLevel : ℝ := 288
  let tempLapseRate : ℝ := 0.0065
  let pressSeaLevel : ℝ := 101325
  let gravity : ℝ := 9.81
  let airMass : ℝ := 0.0289644
  let r : ℝ := 8.31447
  let cw1 : ℝ := 1
  let cw2 : ℝ := 100 + 1000 / 3 * b.diameter
  let k := 0.5 * b.drag * (b.diameter / 2) * (b.diameter / 2) * 3.14159265 / b.mass
  let dt : ℝ := 0.05
  let x := s.x + dt * s.vx
  let y := s.y + dt * s.vy
  let temperature := tempSeaLevel - tempLapseRate * y
  let pressure := pressSeaLevel * (temperature / tempSeaLevel) ^ (gravity * airMass / r / tempLapseRate)
  let rhoG := pressure * airMass / r / temperature
  let vx := s.vx - dt * k * rhoG * (cw1 * s.vx * s.vx + cw2 * s.vx)
  let vy := s.vy - dt * gravity - dt * k * rhoG * (cw1 * s.vy * s.vy + cw2 * s.vy)
  ⟨x, y, vx, vy, s.t + dt⟩

/-- Modelled from the spec: the step as the specification sentence describes
it, an "explicit (forward-Euler) update of velocity then position" -- the
velocity is updated first (atmosphere at the pre-step altitude) and the
position is then advanced with the updated velocity.  Used only to compare
the specified update order against the source's actual update order. -/
noncomputable def specFlightStep (b : Ballistics) (s : FState) : FState :=
  let tempSeaLevel : ℝ := 288
  let tempLapseRate : ℝ := 0.0065
  let pressSeaLevel : ℝ := 101325
  let gravity : ℝ := 9.81
  let airMass : ℝ := 0.0289644
  let r : ℝ := 8.31447
  let cw1 : ℝ := 1
  let cw2 : ℝ := 100 + 1000 / 3 * b.diameter
  let k := 0.5 * b.drag * (b.diameter / 2) * (b.diameter / 2) * 3.14159265 / b.mass
  let dt : ℝ := 0.05
  let temperature := tempSeaLevel - tempLapseRate * s.y
  let pressure := pressSeaLevel * (temperature / tempSeaLevel) ^ (gravity * airMass / r / tempLapseRate)
  let rhoG := pressure * airMass / r / temperature
  let vx := s.vx - dt * k * rhoG * (cw1 * s.vx * s.vx + cw2 * s.vx)
  let vy := s.vy - dt * gravity - dt * k * rhoG * (cw1 * s.vy * s.vy + cw2 * s.vy)
  let x := s.x + dt * vx
  let y := s.y + dt * vy
  ⟨x, y, vx, vy, s.t + dt⟩

/-- The integration loop of `Ballistics::calculate_flight` (`while y >= 0.0`),
with explicit fuel.  With fuel `0` it returns the current state unchanged;
otherwise, while the altitude is `>= 0` it keeps stepping. -/
noncomputable def flightLoop (b : Ballistics) : ℕ → FState → FState
  | 0, s => s
  | fuel + 1, s => if s.y ≥ 0 then flightLoop b fuel (flightStep b s) else s

/-- The iteration core of `Ballistics::calculate_flight_at_range`, generic in
the flight evaluation `cf` (the source calls `self.calculate_flight`; it is
abstracted here because its own `while` loop has no a-priori bound).  `n` is
the number of `for`-loop iterations remaining; when the loop is exhausted the
source evaluates the flight once more at the final (rescaled) guess. -/
noncomputable def solveRangeAux (cf : ℝ → BallisticFlight) (range : ℝ) : ℕ → ℝ → BallisticFlight
  | 0, guess => cf guess
  | n + 1, guess =>
    if |(cf guess).distance - range| < 1 then cf guess
    else solveRangeAux cf range n (guess * range / (cf guess).distance)

/-- `Ballistics::calculate_flight_at_range` (generic in the per-angle flight
evaluation): 12 loop iterations starting from the guess `22.5`. -/
noncomputable def calculateFlightAtRange (cf : ℝ → BallisticFlight) (range : ℝ) : BallisticFlight :=
  solveRangeAux cf range 12 22.5

/-- The sequence of guesses produced by `calculate_flight_at_range`'s
rescaling rule: `guess 0 = 22.5`, `guess (n+1) = guess n * range / distance
achieved at guess n`. -/
noncomputable def guessSeq (cf : ℝ → BallisticFlight) (range : ℝ) : ℕ → ℝ
  | 0 => 22.5
  | n + 1 => guessSeq cf range n * range / (cf (guessSeq cf range n)).distance

/-- `ImpactType` (`gun.rs`): the seven terminal outcomes. -/
inductive ImpactType where
  | Miss
  | NonPenetration
  | Citadel
  | Penetration
  | TorpedoProtection
  | Ricochet
  | OverPenetration
deriving DecidableEq

/-- `HeAmmo` (`gun.rs`). -/
structure HeAmmo where
  damage : ℝ
  piercing : ℝ

/-- `ApAmmo` (`gun.rs`). -/
structure ApAmmo where
  diameter : ℝ
  damage : ℝ
  detonator : ℝ
  detonatorThreshold : ℝ

/-- `AmmoType` (`gun.rs`). -/
inductive AmmoType where
  | He (he : HeAmmo)
  | Ap (ap : ApAmmo)

/-- `ShipConfiguration` (`gun.rs`); the artillery list is omitted here (it is
not consulted by any damage computation). -/
structure ShipConfiguration where
  geometry : List ArmorFace
  speed : ℝ
  length : ℝ
  name : String

/-- `ImpactPath` (`gun.rs`): the stateful mesh walker.  The borrowed mesh is
stored by value. -/
structure ImpactPath where
  mesh : List ArmorFace
  position : Vec3
  direction : Vec3
  reflectedDir : Vec3

/-- `ImpactPath::new`: cast from 1000 units behind the entry offset toward it;
`none` models the `None` (miss) result. -/
noncomputable def ImpactPath.new (target : ShipConfiguration) (direction offset : Vec3) :
    Option (ImpactPath × ArmorFace × Intersection) :=
  let startPos := offset - (1000 : ℝ) • direction
  match nextIntersection target.geometry startPos direction with
  | none => none
  | some (armorface, first) =>
    some (⟨target.geometry, first.intersectPoint, direction, armorface.reflect direction⟩,
      armorface, first)

/-- `ImpactPath::ricochet`: switch to the stored reflected direction, advance
to the next intersection (if any), and recompute the reflected direction. -/
noncomputable def ImpactPath.ricochet (p : ImpactPath) :
    Option (ImpactPath × ArmorFace × Intersection) :=
  let dir := p.reflectedDir
  match nextIntersection p.mesh p.position dir with
  | none => none
  | some (face, i) =>
    some (⟨p.mesh, i.intersectPoint, dir, face.reflect dir⟩, face, i)

/-- `ImpactPath::penetrate`: keep the current direction and advance to the
next intersection (if any). -/
noncomputable def ImpactPath.penetrate (p : ImpactPath) :
    Option (ImpactPath × ArmorFace × Intersection) :=
  match nextIntersection p.mesh p.position p.direction with
  | none => none
  | some (face, i) =>
    some (⟨p.mesh, i.intersectPoint, p.direction, face.reflect p.direction⟩, face, i)

/-- `HeAmmo`'s `Bullet::compute_damage`.  The `_penetration` and `_speed`
arguments are unused, exactly as in the source. -/
noncomputable def HeAmmo.computeDamage (he : HeAmmo) (target : ShipConfiguration)
    (_penetration _speed : ℝ) (direction offset : Vec3) : ℝ × ImpactType :=
  match ImpactPath.new target direction offset with
  | none => (0, ImpactType.Miss)
  | some (_, armorface, _) =>
    if armorface.thickness > he.piercing then (0, ImpactType.NonPenetration)
    else if armorface.armorType = ArmorType.Citadel then (he.damage / 3, ImpactType.Citadel)
    else (he.damage / 3, ImpactType.Penetration)

/-- The `compute_dm` closure of `ApAmmo::compute_damage` (terminal detonation
rule). -/
noncomputable def ApAmmo.computeDm (ap : ApAmmo) (armorface : ArmorFace) (citadelCount : ℕ) :
    ℝ × ImpactType :=
  if citadelCount % 2 = 1 then (1.0 * ap.damage, ImpactType.Citadel)
  else if armorface.armorType = ArmorType.TorpedoProtectionBelt then
    (0, ImpactType.TorpedoProtection)
  else (0.3333 * ap.damage, ImpactType.Penetration)

/-- The per-face ricochet decision inside `ApAmmo::compute_damage`'s loop.
`draw` models the uniform `rng.gen::<f64>()` value consulted in the
`30 <= angle < 45` band. -/
noncomputable def apRicochets (ap : ApAmmo) (armorface : ArmorFace) (angle draw : ℝ) : Bool :=
  if armorface.thickness < ap.diameter / 14.3 then false
  else if angle < 30 then true
  else if angle < 45 then (if draw < (angle - 30) / 15 then true else false)
  else false

/-- The mutable state of the `loop` in `ApAmmo::compute_damage`, at the top of
an iteration. -/
structure ApState where
  path : ImpactPath
  armorface : ArmorFace
  inter : Intersection
  penetration : ℝ
  citadelCount : ℕ
  lastPos : Option Vec3
  detonatorDistance : Option ℝ

/-- Result of one iteration of the AP loop: either a terminal result or the
state for the next iteration. -/
inductive ApStep where
  | done (result : ℝ × ImpactType)
  | next (s : ApState)

/-- The rest of an AP loop iteration after the citadel-parity update and the
detonator countdown: ricochet decision, thickness normalization, budget
bookkeeping, and advancing the path. -/
noncomputable def apStepCore (ap : ApAmmo) (speed draw : ℝ) (s : ApState) (cc : ℕ)
    (dd : Option ℝ) : ApStep :=
  if apRicochets ap s.armorface s.inter.angle draw then
    match s.path.ricochet with
    | none => .done (0, ImpactType.Ricochet)
    | some (p2, face2, i2) =>
      .next ⟨p2, face2, i2, s.penetration, cc, some i2.intersectPoint, dd⟩
  else
    let angle := if (0 : ℝ) > s.inter.angle - 6 then 0 else s.inter.angle - 6
    let normalizedThickness := s.armorface.thickness / Real.cos (deg2rad (90 - angle))
    let pen2 := s.penetration - normalizedThickness
    if pen2 < 0 then
      match s.lastPos with
      | none => .done (0, ImpactType.NonPenetration)
      | some _ => .done (ap.computeDm s.armorface cc)
    else
      let dd2 := if normalizedThickness > ap.detonatorThreshold then
          some (speed * ap.detonator) else dd
      match s.path.penetrate with
      | none => .done (0.1 * ap.damage, ImpactType.OverPenetration)
      | some (p2, face2, i2) =>
        .next ⟨p2, face2, i2, pen2, cc, some i2.intersectPoint, dd2⟩

/-- One full iteration of the `loop` in `ApAmmo::compute_damage`: update the
citadel-crossing count, count down an armed detonator (detonating if it runs
out), then continue with `apStepCore`. -/
noncomputable def apStep (ap : ApAmmo) (speed draw : ℝ) (s : ApState) : ApStep :=
  let cc := if s.armorface.armorType = ArmorType.Citadel then s.citadelCount + 1
    else s.citadelCount
  match s.lastPos, s.detonatorDistance with
  | some lp, some dd =>
    let dist := (s.inter.intersectPoint - lp).magnitude
    let dd2 := dd - dist
    if dd2 < 0 then .done (ap.computeDm s.armorface cc)
    else apStepCore ap speed draw s cc (some dd2)
  | some _, none => apStepCore ap speed draw s cc none
  | none, _ => apStepCore ap speed draw s cc s.detonatorDistance

/-- The AP loop with explicit fuel; `draws` supplies one uniform draw per
iteration.  `none` means the loop did not terminate within `fuel`
iterations. -/
noncomputable def apRun (ap : ApAmmo) (speed : ℝ) (draws : ℕ → ℝ) :
    ℕ → ApState → Option (ℝ × ImpactType)
  | 0, _ => none
  | fuel + 1, s =>
    match apStep ap speed (draws 0) s with
    | .done r => some r
    | .next s2 => apRun ap speed (fun i => draws (i + 1)) fuel s2

/-- `ApAmmo::compute_damage`, with explicit fuel for the traversal loop. -/
noncomputable def ApAmmo.computeDamage (ap : ApAmmo) (target : ShipConfiguration)
    (penetration speed : ℝ) (draws : ℕ → ℝ) (direction offset : Vec3) (fuel : ℕ) :
    Option (ℝ × ImpactType) :=
  match ImpactPath.new target direction offset with
  | none => some (0, ImpactType.Miss)
  | some (path, armorface, first) =>
    apRun ap speed draws fuel ⟨path, armorface, first, penetration, 0, none, none⟩

/-- The drag shape factor `k` of `Ballistics::calculate_flight`. -/
noncomputable def dragShapeK (b : Ballistics) : ℝ :=
  0.5 * b.drag * (b.diameter / 2) * (b.diameter / 2) * 3.14159265 / b.mass

/-- The air density `rho_g` of `Ballistics::calculate_flight`'s barometric
model, as a function of the altitude at which it is evaluated. -/
noncomputable def rhoAt (y : ℝ) : ℝ :=
  let temperature : ℝ := 288 - 0.0065 * y
  101325 * (temperature / 288) ^ ((9.81 : ℝ) * 0.0289644 / 8.31447 / 0.0065) * 0.0289644
    / 8.31447 / temperature

theorem solveRangeAux_zero (cf : ℝ → BallisticFlight) (range guess : ℝ) :
    solveRangeAux cf range 0 guess = cf guess := rfl

theorem solveRangeAux_succ (cf : ℝ → BallisticFlight) (range guess : ℝ) (n : ℕ) :
    solveRangeAux cf range (n + 1) guess =
      if |(cf guess).distance - range| < 1 then cf guess
      else solveRangeAux cf range n (guess * range / (cf guess).distance) := rfl

theorem guessSeq_zero (cf : ℝ → BallisticFlight) (range : ℝ) :
    guessSeq cf range 0 = 22.5 := rfl

theorem guessSeq_succ (cf : ℝ → BallisticFlight) (range : ℝ) (n : ℕ) :
    guessSeq cf range (n + 1) =
      guessSeq cf range n * range / (cf (guessSeq cf range n)).distance := rfl

/-- If the guess at index `m` is not yet convergent, one solver iteration
advances the guess sequence by one index. -/
theorem solveRangeAux_step (cf : ℝ → BallisticFlight) (range : ℝ) (n m : ℕ)
    (h : ¬ |(cf (guessSeq cf range m)).distance - range| < 1) :
    solveRangeAux cf range (n + 1) (guessSeq cf range m) =
      solveRangeAux cf range n (guessSeq cf range (m + 1)) := by
  rw [solveRangeAux_succ, if_neg h, guessSeq_succ]

/-- If none of the guesses at indices `m, ..., m+n-1` is convergent, the
solver runs out of iterations and evaluates the flight at guess `m+n`. -/
theorem solveRangeAux_exhaust (cf : ℝ → BallisticFlight) (range : ℝ) : ∀ n m : ℕ,
    (∀ j, m ≤ j → j < m + n → ¬ |(cf (guessSeq cf range j)).distance - range| < 1) →
    solveRangeAux cf range n (guessSeq cf range m) = cf (guessSeq cf range (m + n)) := by
  intro n
  induction n with
  | zero => intro m _; rw [solveRangeAux_zero, Nat.add_zero]
  | succ n ih =>
    intro m h
    have hm : ¬ |(cf (guessSeq cf range m)).distance - range| < 1 :=
      h m le_rfl (by omega)
    rw [solveRangeAux_step cf range n m hm, ih (m + 1) (fun j h1 h2 => h j (by omega) (by omega))]
    have harith : m + 1 + n = m + (n + 1) := by omega
    rw [harith]

/-- If the guess at index `m+k` is the first convergent one (within the
remaining iteration budget `n`), the solver returns that flight. -/
theorem solveRangeAux_conv (cf : ℝ → BallisticFlight) (range : ℝ) : ∀ n m k : ℕ, k < n →
    (∀ j, m ≤ j → j < m + k → ¬ |(cf (guessSeq cf range j)).distance - range| < 1) →
    |(cf (guessSeq cf range (m + k))).distance - range| < 1 →
    solveRangeAux cf range n (guessSeq cf range m) = cf (guessSeq cf range (m + k)) := by
  intro n
  induction n with
  | zero => intro m k hk; omega
  | succ n ih =>
    intro m k hk hpre hconv
    cases k with
    | zero =>
      rw [solveRangeAux_succ, if_pos (by simpa using hconv)]
      simp
    | succ k =>
      have hm : ¬ |(cf (guessSeq cf range m)).distance - range| < 1 :=
        hpre m le_rfl (by omega)
      have harith : m + 1 + k = m + (k + 1) := by omega
      rw [solveRangeAux_step cf range n m hm,
        ih (m + 1) k (by omega) (fun j h1 h2 => hpre j (by omega) (by omega))
          (by rw [harith]; exact hconv), harith]

/-! ### Concrete sample values used by witnesses and counterexamples -/

/-- A sample AP shell: caliber 300 mm, alpha damage 3. -/
noncomputable def apX : ApAmmo := ⟨300, 3, 0.01, 30⟩

/-- A sample `Normal`-classed face (thickness 10 mm). -/
noncomputable def faceNrm : ArmorFace := ⟨⟨0, 0, 0⟩, ⟨1, 0, 0⟩, ⟨0, 1, 0⟩, 10, ArmorType.Normal⟩

/-- A sample `TorpedoProtectionBelt`-classed face. -/
noncomputable def faceTP : ArmorFace :=
  ⟨⟨0, 0, 0⟩, ⟨1, 0, 0⟩, ⟨0, 1, 0⟩, 40, ArmorType.TorpedoProtectionBelt⟩

/-- A sample flight evaluation whose achieved distance is the square of the
launch angle (used to exercise the range solver's non-convergent path). -/
noncomputable def cfSq : ℝ → BallisticFlight := fun g => ⟨g * g, 0, 0, 0, 0⟩

/-- A sample flight evaluation whose achieved distance equals the launch
angle. -/
noncomputable def cfLin : ℝ → BallisticFlight := fun g => ⟨g, 0, 0, 0, 0⟩

/-- A sample gun (mass 1 kg, diameter 1 m, drag 1). -/
noncomputable def bX : Ballistics := ⟨1, 1, 500, 1, 2400⟩

/-- A sample integration state at altitude exactly 0 with horizontal
velocity 100. -/
noncomputable def sX : FState := ⟨0, 0, 100, 0, 0⟩

/-- A sample dispersion profile (both spreads 1, max range 100). -/
noncomputable def dispX : Dispersion := ⟨1, 1, 100, 0.3⟩

/-! ### Claim C2: the AP terminal detonation rule -/

/-- C2 (counterexample): `compute_dm` does *not* return exactly one-third of
the alpha damage in the default case -- it returns `0.3333 * damage`.  With
alpha damage 3 on a `Normal` face at even citadel parity it returns `0.9999`,
not `1`. -/
theorem C2_compute_dm_third_cex :
    apX.computeDm faceNrm 0 ≠ (apX.damage / 3, ImpactType.Penetration) := by
  intro h
  have h1 := congrArg Prod.fst h
  simp [ApAmmo.computeDm, apX, faceNrm] at h1
  norm_num at h1

/-- C2 (amended): the terminal detonation rule returns, in this order of
precedence: full alpha damage with `Citadel` outcome at odd citadel parity;
else zero damage with `TorpedoProtection` outcome on a torpedo-protection-belt
face; else `0.3333` times the alpha damage (approximately, but not exactly,
one third) with `Penetration` outcome. -/
theorem C2_compute_dm_precedence (ap : ApAmmo) (face : ArmorFace) (cc : ℕ) :
    (cc % 2 = 1 → ap.computeDm face cc = (ap.damage, ImpactType.Citadel)) ∧
    (cc % 2 ≠ 1 → face.armorType = ArmorType.TorpedoProtectionBelt →
      ap.computeDm face cc = (0, ImpactType.TorpedoProtection)) ∧
    (cc % 2 ≠ 1 → face.armorType ≠ ArmorType.TorpedoProtectionBelt →
      ap.computeDm face cc = (0.3333 * ap.damage, ImpactType.Penetration)) := by
  refine ⟨fun h => ?_, fun h1 h2 => ?_, fun h1 h2 => ?_⟩
  · simp_all [ApAmmo.computeDm]
    norm_num
  · simp_all [ApAmmo.computeDm]
  · simp_all [ApAmmo.computeDm]

/-- C2 witness: the amended precedence rule evaluated on the sample
torpedo-protection face at even parity. -/
theorem C2_compute_dm_precedence_witness :
    (0 : ℕ) % 2 ≠ 1 ∧ faceTP.armorType = ArmorType.TorpedoProtectionBelt ∧
    apX.computeDm faceTP 0 = (0, ImpactType.TorpedoProtection) :=
  ⟨by decide, rfl, (C2_compute_dm_precedence apX faceTP 0).2.1 (by decide) rfl⟩

/-! ### Claim C3: the per-face ricochet decision -/

/-- C3: the ricochet decision of the AP loop: a face thinner than
`caliber / 14.3` never ricochets; otherwise an obliquity angle below 30
degrees always ricochets, an angle in `[30, 45)` ricochets exactly when the
uniform draw is below `(angle - 30) / 15`, and an angle of 45 degrees or more
never ricochets. -/
theorem C3_ricochet_rule (ap : ApAmmo) (face : ArmorFace) (angle draw : ℝ) :
    (face.thickness < ap.diameter / 14.3 → apRicochets ap face angle draw = false) ∧
    (¬ face.thickness < ap.diameter / 14.3 → angle < 30 →
      apRicochets ap face angle draw = true) ∧
    (¬ face.thickness < ap.diameter / 14.3 → 30 ≤ angle → angle < 45 →
      (apRicochets ap face angle draw = true ↔ draw < (angle - 30) / 15)) ∧
    (¬ face.thickness < ap.diameter / 14.3 → 45 ≤ angle →
      apRicochets ap face angle draw = false) := by
  refine ⟨fun h => ?_, fun h1 h2 => ?_, fun h1 h2 h3 => ?_, fun h1 h2 => ?_⟩
  · simp [apRicochets, h]
  · simp [apRicochets, h1, h2]
  · have h4 : ¬ angle < 30 := by linarith
    simp only [apRicochets, if_neg h1, if_neg h4, if_pos h3]
    split_ifs with hd <;> simp [hd]
  · have h3 : ¬ angle < 30 := by linarith
    have h4 : ¬ angle < 45 := by linarith
    simp [apRicochets, h1, h3, h4]

/-- C3 witness: the sample face (10 mm) is below the 300 mm shell's
`caliber / 14.3` threshold, so the decision is `false` even at a
steep 50-degree obliquity. -/
theorem C3_ricochet_rule_witness :
    faceNrm.thickness < apX.diameter / 14.3 ∧ apRicochets apX faceNrm 50 0.5 = false :=
  ⟨by norm_num [faceNrm, apX], (C3_ricochet_rule apX faceNrm 50 0.5).1
    (by norm_num [faceNrm, apX])⟩

/-! ### Claim C10: HE damage ignores penetration and speed -/

/-- C10: `HeAmmo::compute_damage` is a pure function of the target, direction
and offset; the penetration-capacity and impact-speed arguments do not
influence the result. -/
theorem C10_he_ignores_pen_speed (he : HeAmmo) (target : ShipConfiguration)
    (direction offset : Vec3) (p1 s1 p2 s2 : ℝ) :
    he.computeDamage target p1 s1 direction offset =
      he.computeDamage target p2 s2 direction offset := rfl

/-! ### Claim C4: the inverse range solver -/

/-- With the quadratic flight evaluation and target range 2, the guess
sequence alternates between `22.5` and `4/45` forever. -/
theorem guessSeqSq (k : ℕ) :
    guessSeq cfSq 2 (2 * k) = 22.5 ∧ guessSeq cfSq 2 (2 * k + 1) = 4 / 45 := by
  induction k with
  | zero =>
    refine ⟨by rw [show 2 * 0 = 0 from rfl, guessSeq_zero], ?_⟩
    rw [show 2 * 0 + 1 = 0 + 1 from rfl, guessSeq_succ, guessSeq_zero]
    norm_num [cfSq]
  | succ k ih =>
    have he : guessSeq cfSq 2 (2 * (k + 1)) = 22.5 := by
      rw [show 2 * (k + 1) = (2 * k + 1) + 1 from by omega, guessSeq_succ, ih.2]
      norm_num [cfSq]
    refine ⟨he, ?_⟩
    rw [guessSeq_succ, he]
    norm_num [cfSq]

/-- C4 (counterexample): when the 12 iterations elapse without convergence,
`calculate_flight_at_range` does *not* return the final in-loop outcome
(the flight at guess index 11); it evaluates the flight once more at the
rescaled guess index 12.  With the quadratic flight evaluation and range 2,
the two outcomes differ (distances `506.25` vs `16/2025`). -/
theorem C4_solver_cex :
    calculateFlightAtRange cfSq 2 ≠ cfSq (guessSeq cfSq 2 11) := by
  have hall : ∀ j, 0 ≤ j → j < 0 + 12 → ¬ |(cfSq (guessSeq cfSq 2 j)).distance - 2| < 1 := by
    intro j _ _
    rcases Nat.even_or_odd j with ⟨c, hc⟩ | ⟨c, hc⟩
    · rw [hc, show c + c = 2 * c from by omega, (guessSeqSq c).1]
      norm_num [cfSq]
      exact le_trans (by norm_num) (le_abs_self _)
    · rw [hc, (guessSeqSq c).2]
      norm_num [cfSq]
      exact le_trans (by norm_num) (le_abs_self _)
  have h12 : calculateFlightAtRange cfSq 2 = cfSq (guessSeq cfSq 2 12) := by
    have h0 : (22.5 : ℝ) = guessSeq cfSq 2 0 := rfl
    rw [calculateFlightAtRange, h0, solveRangeAux_exhaust cfSq 2 12 0 hall]
  rw [h12, show (12 : ℕ) = 2 * 6 from rfl, (guessSeqSq 6).1,
    show (11 : ℕ) = 2 * 5 + 1 from rfl, (guessSeqSq 5).2]
  intro h
  have hd := congrArg BallisticFlight.distance h
  norm_num [cfSq] at hd

/-- C4 (amended): the solver starts from guess `22.5`, performs at most 12
iterations, rescaling the guess by `range / achieved distance`, and returns
early at the first guess whose distance error is under 1; if all 12
iterations elapse without convergence it performs one additional evaluation
at the once-more-rescaled guess (index 12) and returns that outcome, without
signaling failure. -/
theorem C4_solver_rule (cf : ℝ → BallisticFlight) (range : ℝ) :
    guessSeq cf range 0 = 22.5 ∧
    (∀ k, k ≤ 11 →
      (∀ j, j < k → ¬ |(cf (guessSeq cf range j)).distance - range| < 1) →
      |(cf (guessSeq cf range k)).distance - range| < 1 →
      calculateFlightAtRange cf range = cf (guessSeq cf range k)) ∧
    ((∀ j, j ≤ 11 → ¬ |(cf (guessSeq cf range j)).distance - range| < 1) →
      calculateFlightAtRange cf range = cf (guessSeq cf range 12)) := by
  refine ⟨rfl, fun k hk hpre hconv => ?_, fun h => ?_⟩
  · have h0 : (22.5 : ℝ) = guessSeq cf range 0 := rfl
    rw [calculateFlightAtRange, h0,
      solveRangeAux_conv cf range 12 0 k (by omega) (fun j _ h2 => hpre j (by omega))
        (by simpa using hconv)]
    simp
  · have h0 : (22.5 : ℝ) = guessSeq cf range 0 := rfl
    rw [calculateFlightAtRange, h0,
      solveRangeAux_exhaust cf range 12 0 (fun j _ h2 => h j (by omega))]

/-- C4 witness: with the identity flight evaluation and range 2, the guess
converges at index 1 and the solver returns that flight. -/
theorem C4_solver_rule_witness :
    (1 : ℕ) ≤ 11 ∧ |(cfLin (guessSeq cfLin 2 1)).distance - 2| < 1 ∧
    calculateFlightAtRange cfLin 2 = cfLin (guessSeq cfLin 2 1) := by
  have hg1 : guessSeq cfLin 2 1 = 2 := by
    rw [show (1 : ℕ) = 0 + 1 from rfl, guessSeq_succ, guessSeq_zero]
    norm_num [cfLin]
  refine ⟨by norm_num, by rw [hg1]; norm_num [cfLin],
    (C4_solver_rule cfLin 2).2.1 1 (by norm_num) ?_ ?_⟩
  · intro j hj
    have hj0 : j = 0 := by omega
    rw [hj0, guessSeq_zero]
    norm_num [cfLin]
    exact le_trans (by norm_num) (le_abs_self _)
  · rw [hg1]
    norm_num [cfLin]

/-! ### Claim C5: the integration step of `calculate_flight` -/

theorem flightLoop_zero (b : Ballistics) (s : FState) : flightLoop b 0 s = s := rfl

theorem flightLoop_succ (b : Ballistics) (s : FState) (fuel : ℕ) :
    flightLoop b (fuel + 1) s =
      if s.y ≥ 0 then flightLoop b fuel (flightStep b s) else s := rfl

/-- C5 (counterexample): the integration step updates the *position* first
(with the pre-step velocity) and the velocity afterwards -- the claimed
velocity-first order would make the new position depend on the updated
velocity, which it does not.  Also, at altitude exactly 0 a further step *is*
taken (the loop guard is `y >= 0.0`). -/
theorem C5_step_order_cex :
    (flightStep bX sX).x ≠ sX.x + 0.05 * (flightStep bX sX).vx ∧
    flightLoop bX 1 sX ≠ sX := by
  constructor
  · intro h
    rw [show (flightStep bX sX).x = 5 by norm_num [flightStep, bX, sX]] at h
    have hb : ((288 - 0.0065 * ((0 : ℝ) + 0.05 * 0)) / 288 : ℝ) = 1 := by norm_num
    simp only [flightStep, bX, sX] at h
    rw [hb, Real.one_rpow] at h
    norm_num at h
  · intro h
    have ht := congrArg FState.t h
    rw [flightLoop_succ, if_pos (by norm_num [sX]), flightLoop_zero] at ht
    simp only [flightStep, bX, sX] at ht
    norm_num at ht

/-- C5 (amended): each iteration of `calculate_flight`'s loop uses the fixed
time step `0.05`, advances the position first with the pre-step velocity, and
then updates the velocity using the barometric air density evaluated at the
*new* altitude; the loop keeps stepping exactly while the altitude is `>= 0`
(so it terminates only once the altitude becomes strictly negative, and a
step is still taken at altitude exactly 0). -/
theorem C5_step_characterization (b : Ballistics) (s : FState) (fuel : ℕ) :
    (flightStep b s).t = s.t + 0.05 ∧
    (flightStep b s).x = s.x + 0.05 * s.vx ∧
    (flightStep b s).y = s.y + 0.05 * s.vy ∧
    (flightStep b s).vx = s.vx - 0.05 * dragShapeK b * rhoAt (s.y + 0.05 * s.vy) *
      (1 * s.vx * s.vx + (100 + 1000 / 3 * b.diameter) * s.vx) ∧
    (flightStep b s).vy = s.vy - 0.05 * 9.81 - 0.05 * dragShapeK b * rhoAt (s.y + 0.05 * s.vy) *
      (1 * s.vy * s.vy + (100 + 1000 / 3 * b.diameter) * s.vy) ∧
    flightLoop b (fuel + 1) s = (if s.y ≥ 0 then flightLoop b fuel (flightStep b s) else s) := by
  refine ⟨rfl, rfl, rfl, ?_, ?_, rfl⟩ <;>
    simp only [flightStep, dragShapeK, rhoAt]

/-! ### Claim C9: the dispersion offset bound -/

/-- C9 (counterexample): after the rotation by azimuth, a world-space
component of the dispersion offset *can* exceed
`spread_scale * range/max_range * 0.5`, even though both accepted Gaussian
draws lie strictly inside `(-0.5, 0.5)`: with both spreads 1, range equal to
max range, draws `0.4` and `-0.4`, and azimuth 45 degrees, the x component
exceeds `0.5`. -/
theorem C9_dispersion_cex :
    ((-0.5 : ℝ) < 0.4 ∧ (0.4 : ℝ) < 0.5) ∧ ((-0.5 : ℝ) < -0.4 ∧ (-0.4 : ℝ) < 0.5) ∧
    dispX.horizontal * (100 / dispX.maxrange) * 0.5 <
      |(dispX.generateOffset 0.4 (-0.4) 45 100).x| := by
  refine ⟨⟨by norm_num, by norm_num⟩, ⟨by norm_num, by norm_num⟩, ?_⟩
  have hθ : deg2rad 45 = 0.7853981625 := by norm_num [deg2rad]
  have hkey : (dispX.generateOffset 0.4 (-0.4) 45 100).x =
      0.4 * Real.cos 0.7853981625 + 0.4 * Real.sin 0.7853981625 := by
    simp only [Dispersion.generateOffset, dispX, hθ, Vec3.mk_x]
    ring
  have habs : |(0.7853981625 : ℝ)| = 0.7853981625 := abs_of_nonneg (by norm_num)
  have hle1 : |(0.7853981625 : ℝ)| ≤ 1 := by rw [habs]; norm_num
  have hcb := abs_le.mp (Real.cos_bound hle1)
  have hsb := abs_le.mp (Real.sin_bound hle1)
  rw [habs] at hcb hsb
  have hbound : dispX.horizontal * (100 / dispX.maxrange) * 0.5 = 0.5 := by
    norm_num [dispX]
  rw [hkey, hbound]
  refine lt_of_lt_of_le ?_ (le_abs_self _)
  have h1 : (1 : ℝ) - 0.7853981625 ^ 2 / 2 - (0.7853981625 : ℝ) ^ 4 * (5 / 96) ≤
      Real.cos 0.7853981625 := by linarith [hcb.1]
  have h2 : (0.7853981625 : ℝ) - 0.7853981625 ^ 3 / 6 - (0.7853981625 : ℝ) ^ 4 * (5 / 96) ≤
      Real.sin 0.7853981625 := by linarith [hsb.1]
  have h3 : (0.671 : ℝ) ≤ Real.cos 0.7853981625 := le_trans (by norm_num) h1
  have h4 : (0.684 : ℝ) ≤ Real.sin 0.7853981625 := le_trans (by norm_num) h2
  linarith

/-- C9 (amended): the per-axis bound `spread_scale * range/max_range * 0.5`
holds for the object-space offsets before the azimuth rotation; after the
rotation each world-space component is bounded by the sum of the two scaled
spreads, `(horizontal + vertical) * range/max_range * 0.5`. -/
theorem C9_dispersion_bound (d : Dispersion) (g1 g2 azimuth range : ℝ)
    (h1 : -0.5 < g1) (h2 : g1 < 0.5) (h3 : -0.5 < g2) (h4 : g2 < 0.5)
    (hh : 0 ≤ d.horizontal) (hv : 0 ≤ d.vertical) (hf : 0 ≤ range / d.maxrange) :
    |d.horizontal * g1 * (range / d.maxrange)| ≤
      d.horizontal * (range / d.maxrange) * 0.5 ∧
    |d.vertical * g2 * (range / d.maxrange)| ≤
      d.vertical * (range / d.maxrange) * 0.5 ∧
    |(d.generateOffset g1 g2 azimuth range).x| ≤
      (d.horizontal + d.vertical) * (range / d.maxrange) * 0.5 ∧
    |(d.generateOffset g1 g2 azimuth range).z| ≤
      (d.horizontal + d.vertical) * (range / d.maxrange) * 0.5 := by
  have hg1 : |g1| ≤ 0.5 := (abs_lt.mpr ⟨h1, h2⟩).le
  have hg2 : |g2| ≤ 0.5 := (abs_lt.mpr ⟨h3, h4⟩).le
  have hA : |d.horizontal * g1 * (range / d.maxrange)| ≤
      d.horizontal * (range / d.maxrange) * 0.5 := by
    rw [abs_mul, abs_mul, abs_of_nonneg hh, abs_of_nonneg hf]
    calc d.horizontal * |g1| * (range / d.maxrange) ≤
        d.horizontal * 0.5 * (range / d.maxrange) := by
          apply mul_le_mul_of_nonneg_right (mul_le_mul_of_nonneg_left hg1 hh) hf
      _ = d.horizontal * (range / d.maxrange) * 0.5 := by ring
  have hB : |d.vertical * g2 * (range / d.maxrange)| ≤
      d.vertical * (range / d.maxrange) * 0.5 := by
    rw [abs_mul, abs_mul, abs_of_nonneg hv, abs_of_nonneg hf]
    calc d.vertical * |g2| * (range / d.maxrange) ≤
        d.vertical * 0.5 * (range / d.maxrange) := by
          apply mul_le_mul_of_nonneg_right (mul_le_mul_of_nonneg_left hg2 hv) hf
      _ = d.vertical * (range / d.maxrange) * 0.5 := by ring
  refine ⟨hA, hB, ?_, ?_⟩
  · have hx : (d.generateOffset g1 g2 azimuth range).x =
        d.horizontal * g1 * (range / d.maxrange) * Real.cos (deg2rad azimuth) -
          d.vertical * g2 * (range / d.maxrange) * Real.sin (deg2rad azimuth) := rfl
    rw [hx, sub_eq_add_neg]
    calc |d.horizontal * g1 * (range / d.maxrange) * Real.cos (deg2rad azimuth) +
          -(d.vertical * g2 * (range / d.maxrange) * Real.sin (deg2rad azimuth))| ≤
        |d.horizontal * g1 * (range / d.maxrange) * Real.cos (deg2rad azimuth)| +
          |(-(d.vertical * g2 * (range / d.maxrange) * Real.sin (deg2rad azimuth)))| :=
          abs_add _ _
      _ = |d.horizontal * g1 * (range / d.maxrange)| * |Real.cos (deg2rad azimuth)| +
          |d.vertical * g2 * (range / d.maxrange)| * |Real.sin (deg2rad azimuth)| := by
          rw [abs_neg, abs_mul (d.horizontal * g1 * (range / d.maxrange)) _,
            abs_mul (d.vertical * g2 * (range / d.maxrange)) _]
      _ ≤ |d.horizontal * g1 * (range / d.maxrange)| * 1 +
          |d.vertical * g2 * (range / d.maxrange)| * 1 := by
          gcongr
          · exact Real.abs_cos_le_one _
          · exact Real.abs_sin_le_one _
      _ ≤ d.horizontal * (range / d.maxrange) * 0.5 +
          d.vertical * (range / d.maxrange) * 0.5 := by
          rw [mul_one, mul_one]
          exact add_le_add hA hB
      _ = (d.horizontal + d.vertical) * (range / d.maxrange) * 0.5 := by ring
  · have hz : (d.generateOffset g1 g2 azimuth range).z =
        d.horizontal * g1 * (range / d.maxrange) * Real.sin (deg2rad azimuth) +
          d.vertical * g2 * (range / d.maxrange) * Real.cos (deg2rad azimuth) := rfl
    rw [hz]
    calc |d.horizontal * g1 * (range / d.maxrange) * Real.sin (deg2rad azimuth) +
          d.vertical * g2 * (range / d.maxrange) * Real.cos (deg2rad azimuth)| ≤
        |d.horizontal * g1 * (range / d.maxrange) * Real.sin (deg2rad azimuth)| +
          |d.vertical * g2 * (range / d.maxrange) * Real.cos (deg2rad azimuth)| :=
          abs_add _ _
      _ = |d.horizontal * g1 * (range / d.maxrange)| * |Real.sin (deg2rad azimuth)| +
          |d.vertical * g2 * (range / d.maxrange)| * |Real.cos (deg2rad azimuth)| := by
          rw [abs_mul (d.horizontal * g1 * (range / d.maxrange)) _,
            abs_mul (d.vertical * g2 * (range / d.maxrange)) _]
      _ ≤ |d.horizontal * g1 * (range / d.maxrange)| * 1 +
          |d.vertical * g2 * (range / d.maxrange)| * 1 := by
          gcongr
          · exact Real.abs_sin_le_one _
          · exact Real.abs_cos_le_one _
      _ ≤ d.horizontal * (range / d.maxrange) * 0.5 +
          d.vertical * (range / d.maxrange) * 0.5 := by
          rw [mul_one, mul_one]
          exact add_le_add hA hB
      _ = (d.horizontal + d.vertical) * (range / d.maxrange) * 0.5 := by ring

/-- C9 witness: the amended bound evaluated on the sample profile with draws
`0.3` and `-0.2`, azimuth 10 degrees and range 50. -/
theorem C9_dispersion_bound_witness :
    ((-0.5 : ℝ) < 0.3 ∧ (0.3 : ℝ) < 0.5 ∧ (-0.5 : ℝ) < -0.2 ∧ (-0.2 : ℝ) < 0.5 ∧
      (0 : ℝ) ≤ dispX.horizontal ∧ (0 : ℝ) ≤ dispX.vertical ∧
      (0 : ℝ) ≤ 50 / dispX.maxrange) ∧
    |(dispX.generateOffset 0.3 (-0.2) 10 50).x| ≤
      (dispX.horizontal + dispX.vertical) * (50 / dispX.maxrange) * 0.5 :=
  ⟨⟨by norm_num, by norm_num, by norm_num, by norm_num, by norm_num [dispX],
    by norm_num [dispX], by norm_num [dispX]⟩,
   (C9_dispersion_bound dispX 0.3 (-0.2) 10 50 (by norm_num) (by norm_num) (by norm_num)
     (by norm_num) (by norm_num [dispX]) (by norm_num [dispX])
     (by norm_num [dispX])).2.2.1⟩

/-! ### Geometry helper lemmas -/

theorem Vec3.dot_self_nonneg (v : Vec3) : 0 ≤ v.dot v := by
  simp only [Vec3.dot]
  nlinarith [mul_self_nonneg v.x, mul_self_nonneg v.y, mul_self_nonneg v.z]

theorem Vec3.dot_self_pos {v : Vec3} (h : v ≠ 0) : 0 < v.dot v := by
  rcases (Vec3.dot_self_nonneg v).lt_or_eq with h1 | h1
  · exact h1
  · exfalso
    apply h
    have h2 : v.x * v.x + v.y * v.y + v.z * v.z = 0 := by
      simpa [Vec3.dot] using h1.symm
    have hx : v.x = 0 := by
      nlinarith [mul_self_nonneg v.x, mul_self_nonneg v.y, mul_self_nonneg v.z]
    have hy : v.y = 0 := by
      nlinarith [mul_self_nonneg v.x, mul_self_nonneg v.y, mul_self_nonneg v.z]
    have hz : v.z = 0 := by
      nlinarith [mul_self_nonneg v.x, mul_self_nonneg v.y, mul_self_nonneg v.z]
    ext <;> simp [hx, hy, hz]

theorem Vec3.magnitude_pos {v : Vec3} (h : v ≠ 0) : 0 < v.magnitude :=
  Real.sqrt_pos.mpr (Vec3.dot_self_pos h)

theorem Vec3.magnitude_mul_self (v : Vec3) : v.magnitude * v.magnitude = v.dot v :=
  Real.mul_self_sqrt (Vec3.dot_self_nonneg v)

theorem Vec3.dot_normalize_self {v : Vec3} (h : v ≠ 0) :
    v.normalize.dot v.normalize = 1 := by
  have hm := Vec3.magnitude_pos h
  have hm0 : v.magnitude ≠ 0 := ne_of_gt hm
  have hd := Vec3.dot_self_pos h
  have key : v.normalize.dot v.normalize = v.dot v / (v.magnitude * v.magnitude) := by
    simp only [Vec3.normalize, Vec3.smul_def, Vec3.dot]
    field_simp
  rw [key, Vec3.magnitude_mul_self, div_self (ne_of_gt hd)]

theorem Vec3.magnitude_normalize {v : Vec3} (h : v ≠ 0) : v.normalize.magnitude = 1 := by
  rw [Vec3.magnitude, Vec3.dot_normalize_self h, Real.sqrt_one]

/-- Evaluation helper: the magnitude of a vector whose self-dot is a known
perfect square. -/
theorem magnitude_eval {v : Vec3} {k : ℝ} (hk : 0 ≤ k) (h : v.dot v = k ^ 2) :
    v.magnitude = k := by
  rw [Vec3.magnitude, h, Real.sqrt_sq hk]

/-- Evaluation helper: normalization of a vector of known magnitude. -/
theorem normalize_eval {v : Vec3} {k : ℝ} (hk : 0 < k) (h : v.dot v = k ^ 2) :
    v.normalize = (1 / k) • v := by
  rw [Vec3.normalize, magnitude_eval hk.le h]

theorem not_abs_lt {a eps : ℝ} (h : eps ≤ a ∨ eps ≤ -a) : ¬ |a| < eps := by
  rcases h with h | h
  · exact not_lt.mpr (h.trans (le_abs_self a))
  · exact not_lt.mpr (h.trans ((le_abs_self (-a)).trans_eq (abs_neg a)))

/-! ### Claim C6: the reflection primitive -/

/-- C6: for a nondegenerate face and a nonzero incoming direction, `reflect`
returns a unit vector equal to the mirror of the (normalized) incoming
direction about the face normal, with the normal's sign chosen to oppose the
incoming ray. -/
theorem C6_reflect_mirror (f : ArmorFace) (d : Vec3)
    (hcross : (f.v1 - f.v0).cross (f.v2 - f.v0) ≠ 0) (hd : d ≠ 0) :
    ∃ m : Vec3, (m = f.normal ∨ m = -f.normal) ∧ m.dot d ≤ 0 ∧
      (f.reflect d).magnitude = 1 ∧
      f.reflect d = (2 * (((1 / d.magnitude) • d).dot m)) • m - (1 / d.magnitude) • d := by
  set n := f.normal with hn
  have hn1 : n.dot n = 1 := Vec3.dot_normalize_self hcross
  have hmd := Vec3.magnitude_pos hd
  have hnegd : (0 : Vec3) - d ≠ 0 := by
    intro h
    apply hd
    have hx := congrArg Vec3.x h
    have hy := congrArg Vec3.y h
    have hz := congrArg Vec3.z h
    simp at hx hy hz
    ext <;> simp [hx, hy, hz]
  have hmnegd : ((0 : Vec3) - d).magnitude = d.magnitude := by
    rw [Vec3.magnitude, Vec3.magnitude]
    congr 1
    simp [Vec3.dot]
  set v := ((0 : Vec3) - d).normalize with hv
  have hv1 : v.dot v = 1 := Vec3.dot_normalize_self hnegd
  have hvd : v = (-(1 / d.magnitude)) • d := by
    rw [hv, Vec3.normalize, hmnegd]
    ext <;> simp
  -- the sign-adjusted normal
  set s : ℝ := if v.dot n < 0 then -1 else 1 with hs
  set m := s • n with hm
  have hs2 : s = -1 ∨ s = 1 := by
    rw [hs]
    split_ifs <;> simp
  have hmm : m.dot m = 1 := by
    rcases hs2 with h | h
    · rw [hm, h]
      simp only [Vec3.smul_def, Vec3.dot] at hn1 ⊢
      nlinarith [hn1]
    · rw [hm, h]
      simp only [Vec3.smul_def, Vec3.dot] at hn1 ⊢
      nlinarith [hn1]
  have hvm : 0 ≤ v.dot m := by
    rw [hm, hs]
    split_ifs with h
    · simp only [Vec3.smul_def, Vec3.dot] at h ⊢
      nlinarith [h]
    · push_neg at h
      simp only [Vec3.smul_def, Vec3.dot] at h ⊢
      nlinarith [h]
  have hmdot : m.dot d ≤ 0 := by
    have hvm2 : v.dot m = -(1 / d.magnitude) * (d.dot m) := by
      rw [hvd]
      simp only [Vec3.smul_def, Vec3.dot]
      ring
    have hpos : 0 < 1 / d.magnitude := by positivity
    have hdm : d.dot m = m.dot d := by
      simp only [Vec3.dot]
      ring
    nlinarith [hvm, hvm2, hpos, hdm]
  -- the un-normalized reflected vector
  set r := v - (2 * v.dot n) • n with hr
  have hcollapse : v - (2 * v.dot m) • m = r := by
    rcases hs2 with h | h <;> rw [hr, hm, h] <;> ext <;>
      simp only [Vec3.smul_def, Vec3.sub_def, Vec3.dot, Vec3.mk_x, Vec3.mk_y, Vec3.mk_z] <;>
      ring
  have hrr : r.dot r = 1 := by
    have expand : r.dot r =
        v.dot v - 4 * v.dot n * (v.dot n) + 4 * v.dot n * (v.dot n) * (n.dot n) := by
      rw [hr]
      simp only [Vec3.sub_def, Vec3.smul_def, Vec3.dot]
      ring
    rw [expand, hv1, hn1]
    ring
  have hrefl : f.reflect d = r := by
    rw [ArmorFace.reflect]
    simp only [← hn, ← hv, ← hs, ← hm]
    have : (v - (2 * v.dot m) • m).normalize = r.normalize := by rw [hcollapse]
    rw [this, Vec3.normalize, Vec3.magnitude, hrr, Real.sqrt_one]
    ext <;> simp
  refine ⟨m, ?_, hmdot, ?_, ?_⟩
  · rcases hs2 with h | h <;> rw [hm, h]
    · right
      ext <;> simp
    · left
      ext <;> simp
  · rw [hrefl, Vec3.magnitude, hrr, Real.sqrt_one]
  · rw [hrefl, hr, hvd]
    rcases hs2 with h | h <;> rw [hm, h] <;> ext <;>
      simp only [Vec3.smul_def, Vec3.sub_def, Vec3.dot, Vec3.mk_x, Vec3.mk_y, Vec3.mk_z] <;>
      ring

/-- C6 witness: the reflection contract applied to the sample face and the
vertical incoming direction. -/
theorem C6_reflect_mirror_witness :
    ((faceNrm.v1 - faceNrm.v0).cross (faceNrm.v2 - faceNrm.v0) ≠ 0 ∧
      (⟨0, 0, 1⟩ : Vec3) ≠ 0) ∧
    ∃ m : Vec3, (m = faceNrm.normal ∨ m = -faceNrm.normal) ∧ m.dot ⟨0, 0, 1⟩ ≤ 0 ∧
      (faceNrm.reflect ⟨0, 0, 1⟩).magnitude = 1 ∧
      faceNrm.reflect ⟨0, 0, 1⟩ =
        (2 * (((1 / (⟨0, 0, 1⟩ : Vec3).magnitude) • (⟨0, 0, 1⟩ : Vec3)).dot m)) • m -
          (1 / (⟨0, 0, 1⟩ : Vec3).magnitude) • (⟨0, 0, 1⟩ : Vec3) := by
  have h1 : (faceNrm.v1 - faceNrm.v0).cross (faceNrm.v2 - faceNrm.v0) ≠ 0 := by
    simp [faceNrm, Vec3.cross, Vec3.ext_iff]
  have h2 : (⟨0, 0, 1⟩ : Vec3) ≠ 0 := by
    simp [Vec3.ext_iff]
  exact ⟨⟨h1, h2⟩, C6_reflect_mirror faceNrm ⟨0, 0, 1⟩ h1 h2⟩

/-! ### Claim C8: the no-intersection conditions -/

/-- The Moeller-Trumbore determinant `a` of `ArmorFace::intersect`. -/
noncomputable def triA (f : ArmorFace) (direction : Vec3) : ℝ :=
  (f.v1 - f.v0).dot (direction.cross (f.v2 - f.v0))

/-- The barycentric coordinate `u` of `ArmorFace::intersect`. -/
noncomputable def triU (f : ArmorFace) (origin direction : Vec3) : ℝ :=
  1 / triA f direction * (origin - f.v0).dot (direction.cross (f.v2 - f.v0))

/-- The barycentric coordinate `v` of `ArmorFace::intersect`. -/
noncomputable def triV (f : ArmorFace) (origin direction : Vec3) : ℝ :=
  1 / triA f direction * direction.dot ((origin - f.v0).cross (f.v1 - f.v0))

/-- C8: `intersect` returns no intersection exactly when the ray is parallel
to the triangle plane (`|det|` below the epsilon), or `u` is outside `[0,1]`,
or `v < 0`, or `u + v > 1`; in every other case it returns an intersection,
and no condition is imposed on the sign of the ray parameter `t` -- an
intersection behind the origin (`t < 0`) is still returned, as the concrete
instance in the second conjunct shows. -/
theorem C8_intersect_cases :
    (∀ (f : ArmorFace) (origin direction : Vec3),
      f.intersect origin direction = none ↔
        |triA f direction| < 0.00001 ∨ triU f origin direction < 0 ∨
          triU f origin direction > 1 ∨ triV f origin direction < 0 ∨
          triU f origin direction + triV f origin direction > 1) ∧
    (∃ i, faceNrm.intersect ⟨0.2, 0.2, 5⟩ ⟨0, 0, 1⟩ = some i ∧ i.t < 0) := by
  constructor
  · intro f origin direction
    simp only [ArmorFace.intersect, triA, triU, triV]
    split_ifs with h1 h2 h3
    · exact iff_of_true rfl (Or.inl h1)
    · exact iff_of_true rfl (by tauto)
    · exact iff_of_true rfl (by tauto)
    · refine iff_of_false (by simp) ?_
      push_neg at h2 h3
      intro hD
      rcases hD with hD | hD | hD | hD | hD
      · exact h1 hD
      · exact absurd hD (not_lt.mpr h2.1)
      · exact absurd hD (not_lt.mpr h2.2)
      · exact absurd hD (not_lt.mpr h3.1)
      · exact absurd hD (not_lt.mpr h3.2)
  · refine ⟨⟨-5, hitAngle faceNrm ⟨0, 0, 1⟩, ⟨0.2, 0.2, 0⟩⟩, ?_, by norm_num⟩
    rw [ArmorFace.intersect]
    norm_num [faceNrm, Vec3.sub_def, Vec3.cross, Vec3.dot, Vec3.smul_def, Vec3.add_def,
      abs_lt, Intersection.mk.injEq, Vec3.mk.injEq]

/-! ### Claim C7: Scenario B (first-face failure) -/

/-- Scenario entry face: a right triangle with legs 100 in the `z = 0` plane
(hit point strictly inside), thickness 50 mm, `Normal`-classed. -/
noncomputable def faceA : ArmorFace :=
  ⟨⟨-25, -25, 0⟩, ⟨75, -25, 0⟩, ⟨-25, 75, 0⟩, 50, ArmorType.Normal⟩

/-- Scenario second face: the same triangle at `z = 10`, thickness 20 mm,
`Citadel`-classed. -/
noncomputable def faceB : ArmorFace :=
  ⟨⟨-25, -25, 10⟩, ⟨75, -25, 10⟩, ⟨-25, 75, 10⟩, 20, ArmorType.Citadel⟩

/-- The two-face scenario target. -/
noncomputable def shipAB : ShipConfiguration := ⟨[faceA, faceB], 0, 0, "scenario"⟩

/-- The scenario AP shell: caliber 300 mm. -/
noncomputable def apSc : ApAmmo := ⟨300, 9000, 0.033, 30⟩

theorem normal_faceA : faceA.normal = ⟨0, 0, 1⟩ := by
  have h1 : (faceA.v1 - faceA.v0).cross (faceA.v2 - faceA.v0) = ⟨0, 0, 10000⟩ := by
    ext <;> simp [faceA, Vec3.cross]
    norm_num
  rw [ArmorFace.normal, h1,
    normalize_eval (show (0 : ℝ) < 10000 by norm_num) (by norm_num [Vec3.dot])]
  ext <;> simp

/-- A perpendicular strike on the scenario entry face has the code's
obliquity value 90 (the obliquity convention counts 90 as perpendicular). -/
theorem hitAngle_faceA_vert : hitAngle faceA ⟨0, 0, 1⟩ = 90 := by
  have hm : (⟨0, 0, 1⟩ : Vec3).magnitude = 1 :=
    magnitude_eval zero_le_one (by norm_num [Vec3.dot])
  simp only [hitAngle, normal_faceA, hm]
  norm_num [Vec3.dot, Real.arccos_one]

theorem faceA_intersect_entry :
    faceA.intersect ⟨0, 0, -1000⟩ ⟨0, 0, 1⟩ =
      some ⟨1000, hitAngle faceA ⟨0, 0, 1⟩, ⟨0, 0, 0⟩⟩ := by
  rw [ArmorFace.intersect]
  norm_num [faceA, Vec3.sub_def, Vec3.cross, Vec3.dot, Vec3.smul_def, Vec3.add_def, abs_lt,
    Intersection.mk.injEq, Vec3.mk.injEq]

theorem faceB_intersect_entry :
    faceB.intersect ⟨0, 0, -1000⟩ ⟨0, 0, 1⟩ =
      some ⟨1010, hitAngle faceB ⟨0, 0, 1⟩, ⟨0, 0, 10⟩⟩ := by
  rw [ArmorFace.intersect]
  norm_num [faceB, Vec3.sub_def, Vec3.cross, Vec3.dot, Vec3.smul_def, Vec3.add_def, abs_lt,
    Intersection.mk.injEq, Vec3.mk.injEq]

theorem nextIntersection_entry :
    nextIntersection [faceA, faceB] ⟨0, 0, -1000⟩ ⟨0, 0, 1⟩ =
      some (faceA, ⟨1000, hitAngle faceA ⟨0, 0, 1⟩, ⟨0, 0, 0⟩⟩) := by
  rw [nextIntersection]
  simp only [List.filterMap_cons, List.filterMap_nil, faceA_intersect_entry,
    faceB_intersect_entry, Option.map_some']
  rw [List.filter_cons, List.filter_cons, List.filter_nil]
  norm_num

theorem cos_deg6_pos : 0 < Real.cos (deg2rad 6) := by
  have hpi := Real.pi_gt_three
  apply Real.cos_pos_of_mem_Ioo
  constructor
  · norm_num [deg2rad]
    linarith
  · norm_num [deg2rad]
    linarith

/-- C7: Scenario B -- two-face mesh, entry face 50 mm struck perpendicularly
(obliquity measured from the face normal is 0; the code's folded obliquity
value is 90), caliber 300 mm, second face Citadel-classed 20 mm, penetration
capacity 10 mm at entry: AP resolution fails on the very first face and
yields `NonPenetration` with zero damage, for every draw stream and any
positive fuel. -/
theorem C7_scenarioB (draws : ℕ → ℝ) (fuel : ℕ) :
    apSc.computeDamage shipAB 10 800 draws ⟨0, 0, 1⟩ ⟨0, 0, 0⟩ (fuel + 1) =
      some (0, ImpactType.NonPenetration) := by
  have hstart : ((⟨0, 0, 0⟩ : Vec3) - (1000 : ℝ) • ⟨0, 0, 1⟩) = ⟨0, 0, -1000⟩ := by
    ext <;> simp
  have hcos := cos_deg6_pos
  have hnt : (10 : ℝ) - 50 / Real.cos (deg2rad 6) < 0 := by
    have h2 := Real.cos_le_one (deg2rad 6)
    have h3 : (50 : ℝ) ≤ 50 / Real.cos (deg2rad 6) := by
      rw [le_div_iff₀ hcos]
      nlinarith
    linarith
  rw [ApAmmo.computeDamage, ImpactPath.new]
  simp only [shipAB, hstart, nextIntersection_entry]
  rw [apRun]
  have hric : apRicochets apSc faceA (hitAngle faceA ⟨0, 0, 1⟩) (draws 0) = false := by
    rw [apRicochets, hitAngle_faceA_vert]
    norm_num [apSc, faceA]
  have hstep : apStep apSc 800 (draws 0)
      ⟨⟨[faceA, faceB], ⟨0, 0, 0⟩, ⟨0, 0, 1⟩, faceA.reflect ⟨0, 0, 1⟩⟩, faceA,
        ⟨1000, hitAngle faceA ⟨0, 0, 1⟩, ⟨0, 0, 0⟩⟩, 10, 0, none, none⟩ =
      .done (0, ImpactType.NonPenetration) := by
    rw [apStep]
    dsimp only
    rw [if_neg (show ¬ faceA.armorType = ArmorType.Citadel by simp [faceA])]
    rw [apStepCore]
    dsimp only
    rw [hric]
    rw [if_neg (by simp)]
    rw [hitAngle_faceA_vert]
    rw [if_neg (show ¬ (0 : ℝ) > 90 - 6 by norm_num)]
    rw [show faceA.thickness = 50 from rfl]
    rw [show ((90 : ℝ) - (90 - 6)) = 6 by norm_num]
    rw [if_pos hnt]
  rw [hstep]

/-! ### Claim C1: termination of the AP loop

The counterexample mesh below realizes a period-4 ricochet cycle: four faces
around a closed billiard orbit, every hit at the same folded obliquity
(`hitAngle` about 16.26 degrees, below the unconditional-ricochet threshold
30), every face thick enough to ricochet.  All coordinates are rational and
every direction is a rational unit vector, so the whole cycle evaluates
exactly. -/

/-- Cycle direction 1 (unit). -/
noncomputable def u1 : Vec3 := ⟨1, 0, 0⟩

/-- Cycle direction 2 (unit: `527^2 + 336^2 = 625^2`). -/
noncomputable def u2 : Vec3 := ⟨-(527 / 625), 0, 336 / 625⟩

/-- Cycle direction 3 (unit: `164833^2 + 354144^2 = 390625^2`). -/
noncomputable def u3 : Vec3 := ⟨164833 / 390625, 0, -(354144 / 390625)⟩

/-- Orbit corner 1. -/
noncomputable def pt1 : Vec3 := ⟨0, 0, 0⟩

/-- Orbit corner 2. -/
noncomputable def pt2 : Vec3 := ⟨2734375, 0, 0⟩

/-- Orbit corner 3. -/
noncomputable def pt3 : Vec3 := ⟨790272, 0, 1239504⟩

/-- Orbit corner 4. -/
noncomputable def pt4 : Vec3 := ⟨1944103, 0, -1239504⟩

/-- Cycle face at corner 1 (normal direction `(-7/25, 0, -24/25)`). -/
noncomputable def face1 : ArmorFace :=
  ⟨⟨24, -25, -7⟩, ⟨-72, -25, 21⟩, ⟨24, 75, -7⟩, 1000, ArmorType.Normal⟩

/-- Cycle face at corner 2 (parallel to face 1). -/
noncomputable def face2 : ArmorFace :=
  ⟨⟨2734399, -25, -7⟩, ⟨2734303, -25, 21⟩, ⟨2734399, 75, -7⟩, 1000, ArmorType.Normal⟩

/-- Cycle face at corner 3 (normal direction `(11753/15625, 0, 10296/15625)`). -/
noncomputable def face3 : ArmorFace :=
  ⟨⟨779976, -15625, 1251257⟩, ⟨821160, -15625, 1204245⟩, ⟨779976, 46875, 1251257⟩,
    1000, ArmorType.Normal⟩

/-- Cycle face at corner 4 (parallel to face 3). -/
noncomputable def face4 : ArmorFace :=
  ⟨⟨1933807, -15625, -1227751⟩, ⟨1974991, -15625, -1274763⟩, ⟨1933807, 46875, -1227751⟩,
    1000, ArmorType.Normal⟩

/-- The four-face cycle mesh. -/
noncomputable def meshCyc : List ArmorFace := [face1, face2, face3, face4]

/-- The cycle target. -/
noncomputable def shipCyc : ShipConfiguration := ⟨meshCyc, 0, 0, "cycle"⟩

/-- The cycle AP shell: caliber 300 mm, so every 1000 mm face is above the
`caliber / 14.3` ricochet threshold. -/
noncomputable def apCyc : ApAmmo := ⟨300, 100, 0.01, 1000000⟩

theorem mag_u1 : u1.magnitude = 1 :=
  magnitude_eval zero_le_one (by norm_num [u1, Vec3.dot])

theorem mag_u2 : u2.magnitude = 1 :=
  magnitude_eval zero_le_one (by norm_num [u2, Vec3.dot])

theorem mag_u3 : u3.magnitude = 1 :=
  magnitude_eval zero_le_one (by norm_num [u3, Vec3.dot])

theorem normal_face1 : face1.normal = ⟨-(7 / 25), 0, -(24 / 25)⟩ := by
  have h1 : (face1.v1 - face1.v0).cross (face1.v2 - face1.v0) = ⟨-2800, 0, -9600⟩ := by
    ext <;> norm_num [face1, Vec3.cross]
  rw [ArmorFace.normal, h1,
    normalize_eval (show (0 : ℝ) < 10000 by norm_num) (by norm_num [Vec3.dot])]
  ext <;> norm_num

theorem normal_face2 : face2.normal = ⟨-(7 / 25), 0, -(24 / 25)⟩ := by
  have h1 : (face2.v1 - face2.v0).cross (face2.v2 - face2.v0) = ⟨-2800, 0, -9600⟩ := by
    ext <;> norm_num [face2, Vec3.cross]
  rw [ArmorFace.normal, h1,
    normalize_eval (show (0 : ℝ) < 10000 by norm_num) (by norm_num [Vec3.dot])]
  ext <;> norm_num

theorem normal_face3 : face3.normal = ⟨11753 / 15625, 0, 10296 / 15625⟩ := by
  have h1 : (face3.v1 - face3.v0).cross (face3.v2 - face3.v0) =
      ⟨2938250000, 0, 2574000000⟩ := by
    ext <;> norm_num [face3, Vec3.cross]
  rw [ArmorFace.normal, h1,
    normalize_eval (show (0 : ℝ) < 3906250000 by norm_num) (by norm_num [Vec3.dot])]
  ext <;> norm_num

theorem normal_face4 : face4.normal = ⟨11753 / 15625, 0, 10296 / 15625⟩ := by
  have h1 : (face4.v1 - face4.v0).cross (face4.v2 - face4.v0) =
      ⟨2938250000, 0, 2574000000⟩ := by
    ext <;> norm_num [face4, Vec3.cross]
  rw [ArmorFace.normal, h1,
    normalize_eval (show (0 : ℝ) < 3906250000 by norm_num) (by norm_num [Vec3.dot])]
  ext <;> norm_num

theorem dot_n2_u1 : face2.normal.dot u1 = -(7 / 25) := by
  rw [normal_face2]
  norm_num [u1, Vec3.dot]

theorem dot_n3_u2 : face3.normal.dot u2 = -(7 / 25) := by
  rw [normal_face3]
  norm_num [u2, Vec3.dot]

theorem dot_n4_u3 : face4.normal.dot u3 = -(7 / 25) := by
  rw [normal_face4]
  norm_num [u3, Vec3.dot]

theorem dot_n1_u2 : face1.normal.dot u2 = -(7 / 25) := by
  rw [normal_face1]
  norm_num [u2, Vec3.dot]

/-- Numeric bound: `cos 1.75 >= -(7/25)` (via the double angle at 0.875 and
the quartic sine bound). -/
theorem cos_175_ge : (-(7 / 25) : ℝ) ≤ Real.cos 1.75 := by
  have habs : |(0.875 : ℝ)| = 0.875 := abs_of_nonneg (by norm_num)
  have hs := abs_le.mp (Real.sin_bound (show |(0.875 : ℝ)| ≤ 1 by rw [habs]; norm_num))
  rw [habs] at hs
  have hub : Real.sin 0.875 ≤ 0.7939 := by nlinarith [hs.2]
  have hlb : 0 ≤ Real.sin 0.875 :=
    Real.sin_nonneg_of_nonneg_of_le_pi (by norm_num) (by linarith [Real.pi_gt_three])
  have hcos2 : Real.cos 1.75 = 1 - 2 * Real.sin 0.875 ^ 2 := by
    rw [show (1.75 : ℝ) = 2 * 0.875 by norm_num, Real.cos_two_mul]
    have hpyth := Real.sin_sq_add_cos_sq 0.875
    nlinarith [hpyth]
  nlinarith [hub, hlb, hcos2]

/-- Numeric bound: `cos 1.9 < -(7/25)` (via the double angle at 0.95 and the
quartic cosine bound). -/
theorem cos_19_lt : Real.cos 1.9 < -(7 / 25) := by
  have habs : |(0.95 : ℝ)| = 0.95 := abs_of_nonneg (by norm_num)
  have hc := abs_le.mp (Real.cos_bound (show |(0.95 : ℝ)| ≤ 1 by rw [habs]; norm_num))
  rw [habs] at hc
  have hub : Real.cos 0.95 ≤ 0.5912 := by nlinarith [hc.2]
  have hlb : 0 ≤ Real.cos 0.95 := by
    apply Real.cos_nonneg_of_mem_Icc
    constructor
    · linarith [Real.pi_gt_three]
    · linarith [Real.pi_gt_three]
  rw [show (1.9 : ℝ) = 2 * 0.95 by norm_num, Real.cos_two_mul]
  nlinarith [hub, hlb]

/-- The code's degree conversion threshold: `arccos (-(7/25))` exceeds half of
the approximate pi, so the folded-angle branch `angle > 90` is taken. -/
theorem arccos_cyc_lb : (1.570796325 : ℝ) < Real.arccos (-(7 / 25)) := by
  by_contra h
  push_neg at h
  have h1 : Real.cos 1.570796325 ≤ Real.cos (Real.arccos (-(7 / 25))) :=
    Real.cos_le_cos_of_nonneg_of_le_pi (Real.arccos_nonneg _)
      (by linarith [Real.pi_gt_three]) h
  rw [Real.cos_arccos (by norm_num) (by norm_num)] at h1
  have h2 : Real.cos 1.75 < Real.cos 1.570796325 :=
    Real.cos_lt_cos_of_nonneg_of_le_pi (by norm_num) (by linarith [Real.pi_gt_three])
      (by norm_num)
  linarith [cos_175_ge]

/-- `arccos (-(7/25))` stays below `(2/3)` of the approximate pi, so the
folded obliquity is below 30 degrees. -/
theorem arccos_cyc_ub : Real.arccos (-(7 / 25)) < 2.0943951 := by
  by_contra h
  push_neg at h
  have h1 : Real.cos (Real.arccos (-(7 / 25))) ≤ Real.cos 2.0943951 :=
    Real.cos_le_cos_of_nonneg_of_le_pi (by norm_num) (Real.arccos_le_pi _) h
  rw [Real.cos_arccos (by norm_num) (by norm_num)] at h1
  have h2 : Real.cos 2.0943951 < Real.cos 1.9 :=
    Real.cos_lt_cos_of_nonneg_of_le_pi (by norm_num) (by linarith [Real.pi_gt_three])
      (by norm_num)
  linarith [cos_19_lt]

/-- Every hit of the cycle (unit normal-dot `-(7/25)`, unit direction) has a
folded obliquity below 30 degrees, so the AP loop always ricochets there. -/
theorem hitAngle_lt_30 {f : ArmorFace} {d : Vec3} (hn : f.normal.dot d = -(7 / 25))
    (hm : d.magnitude = 1) : hitAngle f d < 30 := by
  have hnn := Real.arccos_nonneg (-(7 / 25))
  have hlb := arccos_cyc_lb
  have hub := arccos_cyc_ub
  simp only [hitAngle, hn, hm, div_one]
  rw [if_neg (not_lt.mpr (by positivity))]
  rw [if_pos (show (180 : ℝ) / 3.14159265 * Real.arccos (-(7 / 25)) > 90 by linarith)]
  linarith

/-- The entry cast position (`pt2 - 1000 * u1`). -/
noncomputable def e0 : Vec3 := ⟨2733375, 0, 0⟩

theorem i01 : face1.intersect e0 u1 = some ⟨-2733375, hitAngle face1 u1, pt1⟩ := by
  rw [ArmorFace.intersect]
  norm_num [face1, e0, u1, pt1, Vec3.sub_def, Vec3.cross, Vec3.dot, Vec3.smul_def,
    Vec3.add_def, abs_lt, Intersection.mk.injEq, Vec3.mk.injEq]

theorem i02 : face2.intersect e0 u1 = some ⟨1000, hitAngle face2 u1, pt2⟩ := by
  rw [ArmorFace.intersect]
  norm_num [face2, e0, u1, pt2, Vec3.sub_def, Vec3.cross, Vec3.dot, Vec3.smul_def,
    Vec3.add_def, abs_lt, Intersection.mk.injEq, Vec3.mk.injEq]

theorem i03 : face3.intersect e0 u1 = none := by
  rw [ArmorFace.intersect]
  norm_num [face3, e0, u1, Vec3.sub_def, Vec3.cross, Vec3.dot, abs_lt]

theorem i04 : face4.intersect e0 u1 = none := by
  rw [ArmorFace.intersect]
  norm_num [face4, e0, u1, Vec3.sub_def, Vec3.cross, Vec3.dot, abs_lt]

theorem i11 : face1.intersect pt2 u2 = none := by
  rw [ArmorFace.intersect]
  norm_num [face1, pt2, u2, Vec3.sub_def, Vec3.cross, Vec3.dot, abs_lt]

theorem i12 : face2.intersect pt2 u2 = some ⟨0, hitAngle face2 u2, pt2⟩ := by
  rw [ArmorFace.intersect]
  norm_num [face2, pt2, u2, Vec3.sub_def, Vec3.cross, Vec3.dot, Vec3.smul_def,
    Vec3.add_def, abs_lt, Intersection.mk.injEq, Vec3.mk.injEq]

theorem i13 : face3.intersect pt2 u2 = some ⟨2305625, hitAngle face3 u2, pt3⟩ := by
  rw [ArmorFace.intersect]
  norm_num [face3, pt2, pt3, u2, Vec3.sub_def, Vec3.cross, Vec3.dot, Vec3.smul_def,
    Vec3.add_def, abs_lt, Intersection.mk.injEq, Vec3.mk.injEq]

theorem i14 : face4.intersect pt2 u2 = none := by
  rw [ArmorFace.intersect]
  norm_num [face4, pt2, u2, Vec3.sub_def, Vec3.cross, Vec3.dot, abs_lt]

theorem i21 : face1.intersect pt3 u3 = none := by
  rw [ArmorFace.intersect]
  norm_num [face1, pt3, u3, Vec3.sub_def, Vec3.cross, Vec3.dot, abs_lt]

theorem i22 : face2.intersect pt3 u3 = none := by
  rw [ArmorFace.intersect]
  norm_num [face2, pt3, u3, Vec3.sub_def, Vec3.cross, Vec3.dot, abs_lt]

theorem i23L : face3.intersect pt3 u3 = some ⟨0, hitAngle face3 u3, pt3⟩ := by
  rw [ArmorFace.intersect]
  norm_num [face3, pt3, u3, Vec3.sub_def, Vec3.cross, Vec3.dot, Vec3.smul_def,
    Vec3.add_def, abs_lt, Intersection.mk.injEq, Vec3.mk.injEq]

theorem i24 : face4.intersect pt3 u3 = some ⟨2734375, hitAngle face4 u3, pt4⟩ := by
  rw [ArmorFace.intersect]
  norm_num [face4, pt3, pt4, u3, Vec3.sub_def, Vec3.cross, Vec3.dot, Vec3.smul_def,
    Vec3.add_def, abs_lt, Intersection.mk.injEq, Vec3.mk.injEq]

theorem i31 : face1.intersect pt4 u2 = some ⟨2305625, hitAngle face1 u2, pt1⟩ := by
  rw [ArmorFace.intersect]
  norm_num [face1, pt4, pt1, u2, Vec3.sub_def, Vec3.cross, Vec3.dot, Vec3.smul_def,
    Vec3.add_def, abs_lt, Intersection.mk.injEq, Vec3.mk.injEq]

theorem i32 : face2.intersect pt4 u2 = none := by
  rw [ArmorFace.intersect]
  norm_num [face2, pt4, u2, Vec3.sub_def, Vec3.cross, Vec3.dot, abs_lt]

theorem i33 : face3.intersect pt4 u2 = none := by
  rw [ArmorFace.intersect]
  norm_num [face3, pt4, u2, Vec3.sub_def, Vec3.cross, Vec3.dot, abs_lt]

theorem i34L : face4.intersect pt4 u2 = some ⟨0, hitAngle face4 u2, pt4⟩ := by
  rw [ArmorFace.intersect]
  norm_num [face4, pt4, u2, Vec3.sub_def, Vec3.cross, Vec3.dot, Vec3.smul_def,
    Vec3.add_def, abs_lt, Intersection.mk.injEq, Vec3.mk.injEq]

theorem i41L : face1.intersect pt1 u1 = some ⟨0, hitAngle face1 u1, pt1⟩ := by
  rw [ArmorFace.intersect]
  norm_num [face1, pt1, u1, Vec3.sub_def, Vec3.cross, Vec3.dot, Vec3.smul_def,
    Vec3.add_def, abs_lt, Intersection.mk.injEq, Vec3.mk.injEq]

theorem i42 : face2.intersect pt1 u1 = some ⟨2734375, hitAngle face2 u1, pt2⟩ := by
  rw [ArmorFace.intersect]
  norm_num [face2, pt1, pt2, u1, Vec3.sub_def, Vec3.cross, Vec3.dot, Vec3.smul_def,
    Vec3.add_def, abs_lt, Intersection.mk.injEq, Vec3.mk.injEq]

theorem i43 : face3.intersect pt1 u1 = none := by
  rw [ArmorFace.intersect]
  norm_num [face3, pt1, u1, Vec3.sub_def, Vec3.cross, Vec3.dot, abs_lt]

theorem i44 : face4.intersect pt1 u1 = none := by
  rw [ArmorFace.intersect]
  norm_num [face4, pt1, u1, Vec3.sub_def, Vec3.cross, Vec3.dot, abs_lt]

theorem ni0 : nextIntersection meshCyc e0 u1 =
    some (face2, ⟨1000, hitAngle face2 u1, pt2⟩) := by
  rw [nextIntersection]
  simp only [meshCyc, List.filterMap_cons, List.filterMap_nil, i01, i02, i03, i04,
    Option.map_some', Option.map_none']
  rw [List.filter_cons, List.filter_cons, List.filter_nil]
  norm_num

theorem ni1 : nextIntersection meshCyc pt2 u2 =
    some (face3, ⟨2305625, hitAngle face3 u2, pt3⟩) := by
  rw [nextIntersection]
  simp only [meshCyc, List.filterMap_cons, List.filterMap_nil, i11, i12, i13, i14,
    Option.map_some', Option.map_none']
  rw [List.filter_cons, List.filter_cons, List.filter_nil]
  norm_num

theorem ni2 : nextIntersection meshCyc pt3 u3 =
    some (face4, ⟨2734375, hitAngle face4 u3, pt4⟩) := by
  rw [nextIntersection]
  simp only [meshCyc, List.filterMap_cons, List.filterMap_nil, i21, i22, i23L, i24,
    Option.map_some', Option.map_none']
  rw [List.filter_cons, List.filter_cons, List.filter_nil]
  norm_num

theorem ni3 : nextIntersection meshCyc pt4 u2 =
    some (face1, ⟨2305625, hitAngle face1 u2, pt1⟩) := by
  rw [nextIntersection]
  simp only [meshCyc, List.filterMap_cons, List.filterMap_nil, i31, i32, i33, i34L,
    Option.map_some', Option.map_none']
  rw [List.filter_cons, List.filter_cons, List.filter_nil]
  norm_num

theorem ni4 : nextIntersection meshCyc pt1 u1 =
    some (face2, ⟨2734375, hitAngle face2 u1, pt2⟩) := by
  rw [nextIntersection]
  simp only [meshCyc, List.filterMap_cons, List.filterMap_nil, i41L, i42, i43, i44,
    Option.map_some', Option.map_none']
  rw [List.filter_cons, List.filter_cons, List.filter_nil]
  norm_num

theorem reflect_face2_u1 : face2.reflect u1 = u2 := by
  have hneg : (0 : Vec3) - u1 = ⟨-1, 0, 0⟩ := by ext <;> norm_num [u1, Vec3.zero_def]
  have hnrm : (⟨-1, 0, 0⟩ : Vec3).normalize = ⟨-1, 0, 0⟩ := by
    rw [normalize_eval one_pos (by norm_num [Vec3.dot])]
    ext <;> norm_num
  rw [ArmorFace.reflect]
  rw [hneg, hnrm, normal_face2]
  rw [if_neg (show ¬ Vec3.dot ⟨-1, 0, 0⟩ ⟨-(7 / 25), 0, -(24 / 25)⟩ < 0 by
    norm_num [Vec3.dot])]
  have hvec : (⟨-1, 0, 0⟩ : Vec3) -
      (2 * Vec3.dot ⟨-1, 0, 0⟩ ((1 : ℝ) • (⟨-(7 / 25), 0, -(24 / 25)⟩ : Vec3))) •
        ((1 : ℝ) • (⟨-(7 / 25), 0, -(24 / 25)⟩ : Vec3)) = u2 := by
    ext <;> norm_num [Vec3.dot, u2]
  rw [hvec, normalize_eval one_pos (by norm_num [u2, Vec3.dot])]
  ext <;> norm_num [u2]

theorem reflect_face3_u2 : face3.reflect u2 = u3 := by
  have hneg : (0 : Vec3) - u2 = ⟨527 / 625, 0, -(336 / 625)⟩ := by
    ext <;> norm_num [u2, Vec3.zero_def]
  have hnrm : (⟨527 / 625, 0, -(336 / 625)⟩ : Vec3).normalize =
      ⟨527 / 625, 0, -(336 / 625)⟩ := by
    rw [normalize_eval one_pos (by norm_num [Vec3.dot])]
    ext <;> norm_num
  rw [ArmorFace.reflect]
  rw [hneg, hnrm, normal_face3]
  rw [if_neg (show ¬ Vec3.dot ⟨527 / 625, 0, -(336 / 625)⟩
      ⟨11753 / 15625, 0, 10296 / 15625⟩ < 0 by norm_num [Vec3.dot])]
  have hvec : (⟨527 / 625, 0, -(336 / 625)⟩ : Vec3) -
      (2 * Vec3.dot ⟨527 / 625, 0, -(336 / 625)⟩
          ((1 : ℝ) • (⟨11753 / 15625, 0, 10296 / 15625⟩ : Vec3))) •
        ((1 : ℝ) • (⟨11753 / 15625, 0, 10296 / 15625⟩ : Vec3)) = u3 := by
    ext <;> norm_num [Vec3.dot, u3]
  rw [hvec, normalize_eval one_pos (by norm_num [u3, Vec3.dot])]
  ext <;> norm_num [u3]

theorem reflect_face4_u3 : face4.reflect u3 = u2 := by
  have hneg : (0 : Vec3) - u3 = ⟨-(164833 / 390625), 0, 354144 / 390625⟩ := by
    ext <;> norm_num [u3, Vec3.zero_def]
  have hnrm : (⟨-(164833 / 390625), 0, 354144 / 390625⟩ : Vec3).normalize =
      ⟨-(164833 / 390625), 0, 354144 / 390625⟩ := by
    rw [normalize_eval one_pos (by norm_num [Vec3.dot])]
    ext <;> norm_num
  rw [ArmorFace.reflect]
  rw [hneg, hnrm, normal_face4]
  rw [if_neg (show ¬ Vec3.dot ⟨-(164833 / 390625), 0, 354144 / 390625⟩
      ⟨11753 / 15625, 0, 10296 / 15625⟩ < 0 by norm_num [Vec3.dot])]
  have hvec : (⟨-(164833 / 390625), 0, 354144 / 390625⟩ : Vec3) -
      (2 * Vec3.dot ⟨-(164833 / 390625), 0, 354144 / 390625⟩
          ((1 : ℝ) • (⟨11753 / 15625, 0, 10296 / 15625⟩ : Vec3))) •
        ((1 : ℝ) • (⟨11753 / 15625, 0, 10296 / 15625⟩ : Vec3)) = u2 := by
    ext <;> norm_num [Vec3.dot, u2]
  rw [hvec, normalize_eval one_pos (by norm_num [u2, Vec3.dot])]
  ext <;> norm_num [u2]

theorem reflect_face1_u2 : face1.reflect u2 = u1 := by
  have hneg : (0 : Vec3) - u2 = ⟨527 / 625, 0, -(336 / 625)⟩ := by
    ext <;> norm_num [u2, Vec3.zero_def]
  have hnrm : (⟨527 / 625, 0, -(336 / 625)⟩ : Vec3).normalize =
      ⟨527 / 625, 0, -(336 / 625)⟩ := by
    rw [normalize_eval one_pos (by norm_num [Vec3.dot])]
    ext <;> norm_num
  rw [ArmorFace.reflect]
  rw [hneg, hnrm, normal_face1]
  rw [if_neg (show ¬ Vec3.dot ⟨527 / 625, 0, -(336 / 625)⟩
      ⟨-(7 / 25), 0, -(24 / 25)⟩ < 0 by norm_num [Vec3.dot])]
  have hvec : (⟨527 / 625, 0, -(336 / 625)⟩ : Vec3) -
      (2 * Vec3.dot ⟨527 / 625, 0, -(336 / 625)⟩
          ((1 : ℝ) • (⟨-(7 / 25), 0, -(24 / 25)⟩ : Vec3))) •
        ((1 : ℝ) • (⟨-(7 / 25), 0, -(24 / 25)⟩ : Vec3)) = u1 := by
    ext <;> norm_num [Vec3.dot, u1]
  rw [hvec, normalize_eval one_pos (by norm_num [u1, Vec3.dot])]
  ext <;> norm_num [u1]

/-- Loop state after the entry hit on face 2. -/
noncomputable def s1 : ApState :=
  ⟨⟨meshCyc, pt2, u1, u2⟩, face2, ⟨1000, hitAngle face2 u1, pt2⟩, 400, 0, none, none⟩

/-- Loop state at the top of an iteration at corner 3. -/
noncomputable def s2 : ApState :=
  ⟨⟨meshCyc, pt3, u2, u3⟩, face3, ⟨2305625, hitAngle face3 u2, pt3⟩, 400, 0, some pt3, none⟩

/-- Loop state at the top of an iteration at corner 4. -/
noncomputable def s3 : ApState :=
  ⟨⟨meshCyc, pt4, u3, u2⟩, face4, ⟨2734375, hitAngle face4 u3, pt4⟩, 400, 0, some pt4, none⟩

/-- Loop state at the top of an iteration at corner 1. -/
noncomputable def s4 : ApState :=
  ⟨⟨meshCyc, pt1, u2, u1⟩, face1, ⟨2305625, hitAngle face1 u2, pt1⟩, 400, 0, some pt1, none⟩

/-- Loop state at the top of an iteration back at corner 2. -/
noncomputable def s5 : ApState :=
  ⟨⟨meshCyc, pt2, u1, u2⟩, face2, ⟨2734375, hitAngle face2 u1, pt2⟩, 400, 0, some pt2, none⟩

theorem ric_face2_u1 (draw : ℝ) :
    apRicochets apCyc face2 (hitAngle face2 u1) draw = true := by
  rw [apRicochets]
  rw [if_neg (show ¬ face2.thickness < apCyc.diameter / 14.3 by norm_num [face2, apCyc])]
  rw [if_pos (hitAngle_lt_30 dot_n2_u1 mag_u1)]

theorem ric_face3_u2 (draw : ℝ) :
    apRicochets apCyc face3 (hitAngle face3 u2) draw = true := by
  rw [apRicochets]
  rw [if_neg (show ¬ face3.thickness < apCyc.diameter / 14.3 by norm_num [face3, apCyc])]
  rw [if_pos (hitAngle_lt_30 dot_n3_u2 mag_u2)]

theorem ric_face4_u3 (draw : ℝ) :
    apRicochets apCyc face4 (hitAngle face4 u3) draw = true := by
  rw [apRicochets]
  rw [if_neg (show ¬ face4.thickness < apCyc.diameter / 14.3 by norm_num [face4, apCyc])]
  rw [if_pos (hitAngle_lt_30 dot_n4_u3 mag_u3)]

theorem ric_face1_u2 (draw : ℝ) :
    apRicochets apCyc face1 (hitAngle face1 u2) draw = true := by
  rw [apRicochets]
  rw [if_neg (show ¬ face1.thickness < apCyc.diameter / 14.3 by norm_num [face1, apCyc])]
  rw [if_pos (hitAngle_lt_30 dot_n1_u2 mag_u2)]

theorem apStep_s1 (draw : ℝ) : apStep apCyc 800 draw s1 = .next s2 := by
  rw [apStep]
  dsimp only [s1]
  rw [if_neg (show ¬ face2.armorType = ArmorType.Citadel by simp [face2])]
  rw [apStepCore]
  dsimp only
  rw [ric_face2_u1 draw, if_pos rfl, ImpactPath.ricochet]
  dsimp only
  rw [ni1]
  dsimp only
  rw [reflect_face3_u2]
  rfl

theorem apStep_s2 (draw : ℝ) : apStep apCyc 800 draw s2 = .next s3 := by
  rw [apStep]
  dsimp only [s2]
  rw [if_neg (show ¬ face3.armorType = ArmorType.Citadel by simp [face3])]
  rw [apStepCore]
  dsimp only
  rw [ric_face3_u2 draw, if_pos rfl, ImpactPath.ricochet]
  dsimp only
  rw [ni2]
  dsimp only
  rw [reflect_face4_u3]
  rfl

theorem apStep_s3 (draw : ℝ) : apStep apCyc 800 draw s3 = .next s4 := by
  rw [apStep]
  dsimp only [s3]
  rw [if_neg (show ¬ face4.armorType = ArmorType.Citadel by simp [face4])]
  rw [apStepCore]
  dsimp only
  rw [ric_face4_u3 draw, if_pos rfl, ImpactPath.ricochet]
  dsimp only
  rw [ni3]
  dsimp only
  rw [reflect_face1_u2]
  rfl

theorem apStep_s4 (draw : ℝ) : apStep apCyc 800 draw s4 = .next s5 := by
  rw [apStep]
  dsimp only [s4]
  rw [if_neg (show ¬ face1.armorType = ArmorType.Citadel by simp [face1])]
  rw [apStepCore]
  dsimp only
  rw [ric_face1_u2 draw, if_pos rfl, ImpactPath.ricochet]
  dsimp only
  rw [ni4]
  dsimp only
  rw [reflect_face2_u1]
  rfl

theorem apStep_s5 (draw : ℝ) : apStep apCyc 800 draw s5 = .next s2 := by
  rw [apStep]
  dsimp only [s5]
  rw [if_neg (show ¬ face2.armorType = ArmorType.Citadel by simp [face2])]
  rw [apStepCore]
  dsimp only
  rw [ric_face2_u1 draw, if_pos rfl, ImpactPath.ricochet]
  dsimp only
  rw [ni1]
  dsimp only
  rw [reflect_face3_u2]
  rfl

/-- Once the loop is anywhere on the four-state ricochet cycle, it never
returns, whatever the draw stream and however much fuel it gets. -/
theorem apRun_cycle : ∀ (fuel : ℕ) (draws : ℕ → ℝ) (s : ApState),
    s = s2 ∨ s = s3 ∨ s = s4 ∨ s = s5 →
    apRun apCyc 800 draws fuel s = none := by
  intro fuel
  induction fuel with
  | zero => intro draws s _; rfl
  | succ n ih =>
    intro draws s hs
    rcases hs with h | h | h | h
    · subst h
      rw [apRun, apStep_s2]
      exact ih _ s3 (by tauto)
    · subst h
      rw [apRun, apStep_s3]
      exact ih _ s4 (by tauto)
    · subst h
      rw [apRun, apStep_s4]
      exact ih _ s5 (by tauto)
    · subst h
      rw [apRun, apStep_s5]
      exact ih _ s2 (by tauto)

/-- On the four-face cycle mesh, with a finite penetration budget of 400 mm,
the ricochet loop runs forever: for every draw stream and every amount of fuel
the loop has not produced a result. -/
theorem cyc_run_forever (draws : ℕ → ℝ) (fuel : ℕ) :
    apCyc.computeDamage shipCyc 400 800 draws u1 pt2 fuel = none := by
  have hstart : pt2 - (1000 : ℝ) • u1 = e0 := by ext <;> norm_num [pt2, u1, e0]
  rw [ApAmmo.computeDamage, ImpactPath.new]
  dsimp only [shipCyc]
  rw [hstart, ni0]
  dsimp only
  rw [reflect_face2_u1]
  cases fuel with
  | zero => rfl
  | succ n =>
    rw [show (⟨⟨meshCyc, pt2, u1, u2⟩, face2, ⟨1000, hitAngle face2 u1, pt2⟩, 400, 0,
        none, none⟩ : ApState) = s1 from rfl]
    rw [apRun, apStep_s1]
    exact apRun_cycle n _ s2 (Or.inl rfl)

/-- A one-plate ship whose single face is too thin ever to ricochet `apX`. -/
noncomputable def shipThin : ShipConfiguration := ⟨[faceNrm], 0, 0, "thin"⟩

/-- The folded, complemented angle stored in every intersection lies in
`[0, 91]` (the upper slack absorbs the approximate-pi conversion factor). -/
theorem hitAngle_bounds (f : ArmorFace) (d : Vec3) :
    0 ≤ hitAngle f d ∧ hitAngle f d ≤ 91 := by
  rw [hitAngle]
  set B := 180 / 3.14159265 * Real.arccos (f.normal.dot d / d.magnitude) with hB
  have h0 : 0 ≤ B := by
    rw [hB]
    exact mul_nonneg (by norm_num) (Real.arccos_nonneg _)
  have hub : B ≤ 180.1 := by
    rw [hB]
    have h1 := Real.arccos_le_pi (f.normal.dot d / d.magnitude)
    have h2 : Real.pi < 3.141593 := Real.pi_lt_d6
    linarith
  rw [if_neg (not_lt.mpr h0)]
  split_ifs with h
  · constructor <;> linarith
  · constructor <;> linarith

/-- The cosine of a degree angle in `[0, 90]` (converted with the approximate
pi) is strictly positive. -/
theorem cos_deg2rad_pos {y : ℝ} (h0 : 0 ≤ y) (h90 : y ≤ 90) : 0 < Real.cos (deg2rad y) := by
  rw [deg2rad]
  apply Real.cos_pos_of_mem_Ioo
  constructor
  · have hpi := Real.pi_gt_three
    nlinarith
  · have hpi := Real.pi_gt_d20
    nlinarith

/-- A fold that at each step keeps either the accumulator or the new element
produces the accumulator or a list element. -/
theorem foldl_choice_mem {α : Type} (g : α → α → α) (hg : ∀ a b, g a b = a ∨ g a b = b) :
    ∀ (l : List α) (c : α), l.foldl g c = c ∨ l.foldl g c ∈ l := by
  intro l
  induction l with
  | nil => intro c; left; rfl
  | cons x xs ih =>
    intro c
    rw [List.foldl_cons]
    rcases ih (g c x) with h | h
    · rcases hg c x with h2 | h2
      · left; rw [h, h2]
      · right; rw [h, h2]; exact List.mem_cons_self x xs
    · right; exact List.mem_cons_of_mem x h

/-- Every intersection produced by `ArmorFace::intersect` carries the folded
obliquity angle of the face against the ray direction. -/
theorem intersect_angle {f : ArmorFace} {o d : Vec3} {i : Intersection}
    (h : f.intersect o d = some i) : i.angle = hitAngle f d := by
  simp only [ArmorFace.intersect] at h
  split_ifs at h
  all_goals
    first
      | exact Option.noConfusion h
      | (injection h with h2; rw [← h2])

/-- `next_intersection` only returns faces of the mesh, each paired with the
intersection record built by `intersect` (in particular its angle is the
folded obliquity angle for the query direction). -/
theorem nextIntersection_spec {mesh : List ArmorFace} {pos dir : Vec3} {f : ArmorFace}
    {i : Intersection} (h : nextIntersection mesh pos dir = some (f, i)) :
    f ∈ mesh ∧ i.angle = hitAngle f dir := by
  rw [nextIntersection] at h
  rcases hc : (mesh.filterMap fun face =>
      (face.intersect pos dir).map fun j => (face, j)).filter
        (fun fi => fi.2.t > 0.00001) with _ | ⟨c, cs⟩
  · rw [hc] at h
    exact Option.noConfusion h
  · rw [hc] at h
    injection h with h2
    have hmem : (f, i) = c ∨ (f, i) ∈ cs := by
      rw [← h2]
      exact foldl_choice_mem _
        (fun a b => by split_ifs <;> [exact Or.inl rfl; exact Or.inr rfl]) cs c
    have hmem2 : (f, i) ∈ (mesh.filterMap fun face =>
        (face.intersect pos dir).map fun j => (face, j)).filter
          (fun fi => fi.2.t > 0.00001) := by
      rw [hc]
      rcases hmem with h3 | h3
      · rw [h3]; exact List.mem_cons_self c cs
      · exact List.mem_cons_of_mem c h3
    have hmem3 := List.mem_of_mem_filter hmem2
    rw [List.mem_filterMap] at hmem3
    obtain ⟨face, hface, hmap⟩ := hmem3
    rw [Option.map_eq_some'] at hmap
    obtain ⟨j, hj, hpair⟩ := hmap
    rw [Prod.mk.injEq] at hpair
    obtain ⟨hf1, hf2⟩ := hpair
    subst hf1
    subst hf2
    exact ⟨hface, intersect_angle hj⟩

/-- `ImpactPath::penetrate` keeps the mesh, and returns a mesh face together
with an intersection whose angle is the folded obliquity for the current
direction. -/
theorem penetrate_spec {p p2 : ImpactPath} {f : ArmorFace} {i : Intersection}
    (h : p.penetrate = some (p2, f, i)) :
    p2.mesh = p.mesh ∧ f ∈ p.mesh ∧ i.angle = hitAngle f p.direction := by
  rw [ImpactPath.penetrate] at h
  rcases hni : nextIntersection p.mesh p.position p.direction with _ | ⟨f3, i3⟩
  · rw [hni] at h
    exact Option.noConfusion h
  · rw [hni] at h
    obtain ⟨hmem, hang⟩ := nextIntersection_spec hni
    simp only [Option.some.injEq, Prod.mk.injEq] at h
    obtain ⟨h1, h2, h3⟩ := h
    subst h2
    subst h3
    exact ⟨by rw [← h1], hmem, hang⟩

/-- `ImpactPath::new` walks the target's geometry, and its first hit is a
geometry face with an intersection whose angle is the folded obliquity for the
incoming direction. -/
theorem new_spec {target : ShipConfiguration} {direction offset : Vec3} {p : ImpactPath}
    {f : ArmorFace} {i : Intersection}
    (h : ImpactPath.new target direction offset = some (p, f, i)) :
    p.mesh = target.geometry ∧ f ∈ target.geometry ∧ i.angle = hitAngle f direction := by
  rw [ImpactPath.new] at h
  rcases hni : nextIntersection target.geometry (offset - (1000 : ℝ) • direction) direction
    with _ | ⟨f3, i3⟩
  · rw [hni] at h
    exact Option.noConfusion h
  · rw [hni] at h
    obtain ⟨hmem, hang⟩ := nextIntersection_spec hni
    simp only [Option.some.injEq, Prod.mk.injEq] at h
    obtain ⟨h1, h2, h3⟩ := h
    subst h2
    subst h3
    exact ⟨by rw [← h1], hmem, hang⟩

/-- On a mesh all of whose faces are thinner than the unconditional-penetration
threshold and at least `τ` thick, one pass of `apStepCore` either returns, or
advances to a well-formed state with at least `τ` less penetration budget
left. -/
theorem apStepCore_thin (ap : ApAmmo) (speed draw τ : ℝ) (s : ApState) (cc : ℕ)
    (dd : Option ℝ) (hτ : 0 < τ)
    (hthin : ∀ f ∈ s.path.mesh, f.thickness < ap.diameter / 14.3 ∧ τ ≤ f.thickness)
    (hface : s.armorface ∈ s.path.mesh) (h91 : s.inter.angle ≤ 91) :
    (∃ r, apStepCore ap speed draw s cc dd = .done r) ∨
    (∃ s2, apStepCore ap speed draw s cc dd = .next s2 ∧ s2.path.mesh = s.path.mesh ∧
      s2.armorface ∈ s2.path.mesh ∧ s2.inter.angle ≤ 91 ∧
      s2.penetration ≤ s.penetration - τ ∧ 0 ≤ s2.penetration) := by
  rw [apStepCore]
  have hricF : apRicochets ap s.armorface s.inter.angle draw = false := by
    rw [apRicochets, if_pos (hthin s.armorface hface).1]
  rw [hricF]
  simp only [Bool.false_eq_true, if_false]
  set A := if (0 : ℝ) > s.inter.angle - 6 then (0 : ℝ) else s.inter.angle - 6 with hA
  have hA0 : 0 ≤ A := by
    rw [hA]
    split_ifs with h
    · exact le_refl 0
    · linarith [not_lt.mp h]
  have hA85 : A ≤ 85 := by
    rw [hA]
    split_ifs with h
    · norm_num
    · linarith
  have hcos : 0 < Real.cos (deg2rad (90 - A)) := cos_deg2rad_pos (by linarith) (by linarith)
  have hcos1 : Real.cos (deg2rad (90 - A)) ≤ 1 := Real.cos_le_one _
  have hτth : τ ≤ s.armorface.thickness := (hthin s.armorface hface).2
  have hnt : τ ≤ s.armorface.thickness / Real.cos (deg2rad (90 - A)) := by
    rw [le_div_iff₀ hcos]
    nlinarith
  split_ifs with hpen hdet
  · left
    rcases hlp : s.lastPos with _ | lp
    · exact ⟨(0, ImpactType.NonPenetration), rfl⟩
    · exact ⟨ap.computeDm s.armorface cc, rfl⟩
  · rcases hp : s.path.penetrate with _ | ⟨p2, f2, i2⟩
    · left
      exact ⟨(0.1 * ap.damage, ImpactType.OverPenetration), rfl⟩
    · right
      obtain ⟨hm, hmem, hang⟩ := penetrate_spec hp
      refine ⟨_, rfl, hm, ?_, ?_, ?_, ?_⟩
      · rw [hm]; exact hmem
      · rw [hang]; exact (hitAngle_bounds f2 s.path.direction).2
      · dsimp only; linarith
      · dsimp only; linarith [not_lt.mp hpen]
  · rcases hp : s.path.penetrate with _ | ⟨p2, f2, i2⟩
    · left
      exact ⟨(0.1 * ap.damage, ImpactType.OverPenetration), rfl⟩
    · right
      obtain ⟨hm, hmem, hang⟩ := penetrate_spec hp
      refine ⟨_, rfl, hm, ?_, ?_, ?_, ?_⟩
      · rw [hm]; exact hmem
      · rw [hang]; exact (hitAngle_bounds f2 s.path.direction).2
      · dsimp only; linarith
      · dsimp only; linarith [not_lt.mp hpen]

/-- On an all-thin mesh, a full loop iteration either returns, or advances to
a well-formed state while consuming at least `τ` of the penetration budget. -/
theorem apStep_thin (ap : ApAmmo) (speed draw τ : ℝ) (s : ApState) (hτ : 0 < τ)
    (hthin : ∀ f ∈ s.path.mesh, f.thickness < ap.diameter / 14.3 ∧ τ ≤ f.thickness)
    (hface : s.armorface ∈ s.path.mesh) (h91 : s.inter.angle ≤ 91) :
    (∃ r, apStep ap speed draw s = .done r) ∨
    (∃ s2, apStep ap speed draw s = .next s2 ∧ s2.path.mesh = s.path.mesh ∧
      s2.armorface ∈ s2.path.mesh ∧ s2.inter.angle ≤ 91 ∧
      s2.penetration ≤ s.penetration - τ ∧ 0 ≤ s2.penetration) := by
  rw [apStep]
  rcases hlp : s.lastPos with _ | lp <;> rcases hdd : s.detonatorDistance with _ | dd
  · exact apStepCore_thin ap speed draw τ s _ _ hτ hthin hface h91
  · exact apStepCore_thin ap speed draw τ s _ _ hτ hthin hface h91
  · exact apStepCore_thin ap speed draw τ s _ _ hτ hthin hface h91
  · dsimp only
    split_ifs with h1 h2 h3
    · exact Or.inl ⟨_, rfl⟩
    · exact Or.inl ⟨_, rfl⟩
    · exact apStepCore_thin ap speed draw τ s _ _ hτ hthin hface h91
    · exact apStepCore_thin ap speed draw τ s _ _ hτ hthin hface h91

/-- On an all-thin mesh (every face below the ricochet threshold, every face
at least `τ` thick), the AP loop returns within any fuel whose `τ`-multiple
exceeds the penetration budget. -/
theorem apRun_thin (ap : ApAmmo) (speed τ : ℝ) (hτ : 0 < τ) :
    ∀ (fuel : ℕ) (draws : ℕ → ℝ) (s : ApState),
      (∀ f ∈ s.path.mesh, f.thickness < ap.diameter / 14.3 ∧ τ ≤ f.thickness) →
      s.armorface ∈ s.path.mesh → s.inter.angle ≤ 91 →
      s.penetration < τ * ((fuel : ℝ) + 1) →
      ∃ r, apRun ap speed draws (fuel + 1) s = some r := by
  intro fuel
  induction fuel with
  | zero =>
    intro draws s hthin hface h91 hpen
    rcases apStep_thin ap speed (draws 0) τ s hτ hthin hface h91 with ⟨r, hr⟩ |
      ⟨s2, _, _, _, _, hle, hnn⟩
    · exact ⟨r, by rw [apRun, hr]⟩
    · exfalso
      push_cast at hpen
      linarith
  | succ n ih =>
    intro draws s hthin hface h91 hpen
    rcases apStep_thin ap speed (draws 0) τ s hτ hthin hface h91 with ⟨r, hr⟩ |
      ⟨s2, hs2, hm, hmem, h91b, hle, hnn⟩
    · exact ⟨r, by rw [apRun, hr]⟩
    · have hstep : s2.penetration < τ * ((n : ℝ) + 1) := by
        push_cast at hpen
        have hexp : τ * ((n : ℝ) + 1 + 1) = τ * ((n : ℝ) + 1) + τ := by ring
        linarith
      obtain ⟨r, hr⟩ := ih (fun i => draws (i + 1)) s2 (fun f hf => hthin f (hm ▸ hf))
        hmem h91b hstep
      exact ⟨r, by rw [apRun, hs2]; exact hr⟩

/-- C1 (amended): on any mesh all of whose faces are both thinner than the
unconditional-penetration threshold `diameter / 14.3` (so no hit can ever
ricochet) and at least `τ` thick, AP damage resolution terminates: any fuel
whose `τ`-multiple exceeds the penetration budget yields a result.  (The
unamended universal claim is refuted by `C1_nontermination_cex`: a mesh whose
faces keep ricocheting the shell around a closed cycle never returns.) -/
theorem C1_ap_termination (ap : ApAmmo) (target : ShipConfiguration)
    (penetration speed : ℝ) (draws : ℕ → ℝ) (direction offset : Vec3)
    (τ : ℝ) (fuel : ℕ) (hτ : 0 < τ)
    (hthin : ∀ f ∈ target.geometry, f.thickness < ap.diameter / 14.3 ∧ τ ≤ f.thickness)
    (hfuel : penetration < τ * ((fuel : ℝ) + 1)) :
    ∃ r, ap.computeDamage target penetration speed draws direction offset (fuel + 1) = some r := by
  rw [ApAmmo.computeDamage]
  rcases hn : ImpactPath.new target direction offset with _ | ⟨path, armorface, first⟩
  · exact ⟨(0, ImpactType.Miss), rfl⟩
  · obtain ⟨hm, hmem, hang⟩ := new_spec hn
    exact apRun_thin ap speed τ hτ fuel draws ⟨path, armorface, first, penetration, 0, none, none⟩
      (fun f hf => hthin f (hm ▸ hf)) (hm.symm ▸ hmem)
      (by rw [hang]; exact (hitAngle_bounds armorface direction).2) hfuel

/-- Witness for `C1_ap_termination`: a concrete thin one-plate ship, shot by
`apX` with penetration budget 25 and fuel 4, has its hypotheses satisfied. -/
theorem C1_ap_termination_witness :
    ∃ r, apX.computeDamage shipThin 25 800 (fun _ => 0) ⟨0, 0, 1⟩ ⟨0, 0, 0⟩ (3 + 1) = some r :=
  C1_ap_termination apX shipThin 25 800 (fun _ => 0) ⟨0, 0, 1⟩ ⟨0, 0, 0⟩ 10 3 (by norm_num)
    (by
      intro f hf
      simp only [shipThin, List.mem_singleton] at hf
      subst hf
      constructor <;> norm_num [faceNrm, apX])
    (by norm_num)

/-- C1 (counterexample): AP damage resolution does *not* terminate on every
finite mesh with a finite penetration budget: on the concrete four-face cycle
mesh `meshCyc`, with penetration budget 400, the resolver returns no result at
any fuel -- as a function of the fuel it is constantly `none`, i.e. the
penetration/ricochet loop runs forever. -/
theorem C1_nontermination_cex :
    (fun fuel => apCyc.computeDamage shipCyc 400 800 (fun _ => 0) u1 pt2 fuel) =
      (fun _ => (none : Option (ℝ × ImpactType))) := by
  funext fuel
  exact cyc_run_forever (fun _ => 0) fuel

end WowsArmor
